import Mathlib

/-!
Verification development for the ASR-GoT graph state machine implemented in
`src/server/index-backup.js` (stages 2-6: evidence integration, pruning,
merging, subgraph extraction) and `src/server/index-corrected.js`
(stages 0-3: initialization with input validation, decomposition,
hypothesis generation).

Modelling conventions, shared by every definition below:
* JavaScript numbers are modelled as rationals (`ℚ`); every arithmetic
  operation used by the modelled code (+, -, *, /, min, max, pow with a
  natural exponent, comparisons) is exact on the inputs considered.
* A JavaScript `Map` is modelled as an insertion-ordered association list
  `List (String × α)`; `mapGet`, `mapSet` and key-filtering mirror
  `Map.get`, `Map.set` and `Map.delete`.
* `x || d` on a possibly absent number (JS falsy coercion: `null`,
  `undefined` and `0` all fall back to `d`) is `jsOrOptQ`/`jsOrQ`;
  on a possibly absent string (`null`, `undefined`, `""` fall back) it is
  `jsOrStr`; truthiness of a nullable string field is `jsTruthyStr`.
* A JavaScript `Set` built from a list is `jsSetDedup` (keeps the first
  occurrence of each element, like Set insertion order).
* Timestamps: the only timestamp-dependent computation reachable through
  the modelled operations is `_applyTemporalDecay`, which inside
  `integrateEvidence` is applied to the evidence node that the very same
  call just created, so its age is 0.  The decay helper takes the age in
  whole days as an explicit parameter (`Math.pow(f, ageHours/24)` with an
  integer number of days).
* Fields of node/edge metadata that no modelled operation reads
  (timestamps, revision history, bias flags, entropy estimates,
  topology-metric annotations, attribution) are omitted.
-/

set_option maxHeartbeats 1000000
set_option maxRecDepth 4000

attribute [local semireducible] Rat.mul Rat.add Rat.sub Rat.inv Rat.ofScientific

/-- Decidable equality of `Except` results, used to evaluate the modelled
operations on concrete inputs. -/
instance {ε α : Type} [DecidableEq ε] [DecidableEq α] : DecidableEq (Except ε α) :=
  fun a b =>
    match a, b with
    | .ok x, .ok y =>
      if h : x = y then isTrue (by rw [h]) else isFalse (fun hh => h (Except.ok.inj hh))
    | .ok _, .error _ => isFalse (fun hh => Except.noConfusion hh)
    | .error _, .ok _ => isFalse (fun hh => Except.noConfusion hh)
    | .error x, .error y =>
      if h : x = y then isTrue (by rw [h]) else isFalse (fun hh => h (Except.error.inj hh))

/-- JS `x || d` for a number field that is always present: `0` is falsy. -/
def jsOrQ (x d : ℚ) : ℚ := if x = 0 then d else x

/-- JS `x?.y || d` for an optional number: absent or `0` falls back to `d`. -/
def jsOrOptQ (x : Option ℚ) (d : ℚ) : ℚ :=
  match x with
  | none => d
  | some v => if v = 0 then d else v

/-- JS `s || d` for an optional string: absent or `""` falls back to `d`. -/
def jsOrStr (x : Option String) (d : String) : String :=
  match x with
  | none => d
  | some s => if s = "" then d else s

/-- JS truthiness of a nullable string field (`!field` is true for `null`
and for `""`). -/
def jsTruthyStr (x : Option String) : Bool :=
  match x with
  | none => false
  | some s => s != ""

/-- JS `new Set(list)` materialised back to a list: keeps the first
occurrence of each element, in insertion order. -/
def jsSetDedup (l : List String) : List String :=
  l.foldl (fun acc x => if x ∈ acc then acc else acc ++ [x]) []

/-- `Map.get`: first entry with the given key (keys are unique in a JS Map). -/
def mapGet {α : Type} (m : List (String × α)) (k : String) : Option α :=
  (m.find? (fun p => p.1 == k)).map Prod.snd

/-- `Map.set`: replace the entry in place if the key is present, otherwise
append, exactly like a JS Map preserving insertion order. -/
def mapSet {α : Type} : List (String × α) → String → α → List (String × α)
  | [], k, v => [(k, v)]
  | p :: rest, k, v => if p.1 == k then (k, v) :: rest else p :: mapSet rest k v

/-- Node metadata (`_createNodeMetadata`), restricted to the fields the
modelled operations read. -/
structure NodeMeta where
  disciplinary_tags : List String
  falsification_criteria : Option String
  impact_score : ℚ
  layer_id : String
  temporal_decay_factor : ℚ
  deriving DecidableEq, Repr

/-- A graph node as built by `index-backup.js` (`node_id`, `label`, `type`,
`content`, `confidence` 4-vector, metadata). -/
structure Node where
  node_id : String
  label : String
  type : String
  content : String
  confidence : List ℚ
  metadata : NodeMeta
  deriving DecidableEq, Repr

/-- A binary edge (`edge_id`, `source`, `target`, `edge_type`). -/
structure Edge where
  edge_id : String
  source : String
  target : String
  edge_type : String
  deriving DecidableEq, Repr

/-- A hyperedge (`_checkHyperedgeCreation`): contributor node ids and the
jointly influenced target. -/
structure Hyperedge where
  hyperedge_id : String
  nodes : List String
  target : String
  deriving DecidableEq, Repr

/-- The ASR-GoT graph state: vertices, edges and hyperedges as
insertion-ordered maps, plus the stage counter. -/
structure Graph where
  vertices : List (String × Node)
  edges : List (String × Edge)
  hyperedges : List (String × Hyperedge)
  currentStage : ℕ
  deriving DecidableEq, Repr

/-- Error taxonomy of the server: wrong stage, unknown node id, input
validation failure, and the JS `TypeError` raised by reading a property of
`undefined`.  `outOfFuel` is an artefact of modelling the merge loops with
explicit fuel and is never returned on the inputs considered. -/
inductive GotError where
  | stageViolation (current expected : ℕ)
  | nodeNotFound (id : String)
  | validationError (msg : String)
  | typeError
  | outOfFuel
  deriving DecidableEq, Repr

/-- Caller-supplied evidence object as consumed by `integrateEvidence` and
`_calculateBayesianUpdate`.  `statistical_power_power` stands for the JS
access path `evidence.statistical_power?.power` and
`info_metrics_novelty_score` for `evidence.info_metrics?.novelty_score`. -/
structure EvidenceInput where
  title : Option String
  content : String
  confidence : List ℚ
  relationship : Option String
  disciplinary_tags : List String
  statistical_power_power : Option ℚ
  info_metrics_novelty_score : Option ℚ
  impact_score : Option ℚ
  deriving DecidableEq, Repr

/-- `text.toLowerCase()`: lower-case every character (a character-level
restatement of `String.toLower`). -/
def jsToLower (s : String) : String := String.mk (s.toList.map Char.toLower)

/-- Accumulator-based splitting on a single separator character. -/
def splitCharAux (sep : Char) : List Char → List Char → List String
  | [], cur => [String.mk cur.reverse]
  | c :: rest, cur =>
    if c = sep then String.mk cur.reverse :: splitCharAux sep rest []
    else splitCharAux sep rest (c :: cur)

/-- JS `text.split(sep)` for a one-character separator: the empty string
yields `[""]`, exactly as in JS. -/
def jsSplitChar (sep : Char) (s : String) : List String :=
  splitCharAux sep s.toList []

/-- JS `text.split(/\s+/)` for text whose whitespace is single blanks
(every content used by the modelled code and the concrete inputs below). -/
def jsSplitBlank (s : String) : List String := jsSplitChar ' ' s

/-- `_calculateSemanticSimilarity` word set: lowercase, split on blanks,
deduplicate (JS `new Set(text.toLowerCase().split(/\s+/))`). -/
def wordSet (text : String) : List String :=
  jsSetDedup (jsSplitBlank (jsToLower text))

/-- `_calculateSemanticSimilarity`: Jaccard similarity of the two word sets. -/
def calculateSemanticSimilarity (text1 text2 : String) : ℚ :=
  let words1 := wordSet text1
  let words2 := wordSet text2
  let intersection := words1.filter (fun w => words2.contains w)
  let union := jsSetDedup (words1 ++ words2)
  if 0 < union.length then (intersection.length : ℚ) / (union.length : ℚ) else 0

/-- `_assessNovelty`: share of words longer than 6 characters,
`Math.min(1, novel / Math.max(1, keywords.length))`. -/
def assessNovelty (content : String) : ℚ :=
  let keywords := jsSplitBlank (jsToLower content)
  let novelKeywords := (keywords.filter (fun w => 6 < w.length)).length
  min 1 ((novelKeywords : ℚ) / ((max 1 keywords.length : ℕ) : ℚ))

/-- `_calculateBayesianUpdate`: evidence strength is the mean of the
4-vector, power and novelty are read from the raw caller-supplied evidence
object with defaults 0.8 and 0.5, and the edge type picks the direction
and scale of the multiplicative factor. -/
def calculateBayesianUpdate (evidence : EvidenceInput) (edgeType : String) :
    List ℚ :=
  let evidenceStrength := evidence.confidence.sum / 4
  let statPower := jsOrOptQ evidence.statistical_power_power (4/5)
  let infoValue := jsOrOptQ evidence.info_metrics_novelty_score (1/2)
  let baseUpdate := evidenceStrength * statPower * infoValue * (3/10)
  let factor :=
    if edgeType == "Supportive" then 1 + baseUpdate
    else if edgeType == "Contradictory" then 1 - baseUpdate
    else if edgeType == "Correlative" then 1 + baseUpdate * (1/2)
    else if edgeType == "Causal" then 1 + baseUpdate * (6/5)
    else 1 + baseUpdate * (3/10)
  List.replicate 4 factor

/-- `_checkInterdisciplinaryBridges`: if the two tag sets are disjoint and
the lexical similarity exceeds 0.5, add the bridge node (tags = union,
layer `interdisciplinary`).  Note that the source adds only the node: no
connecting edge is created. -/
def checkInterdisciplinaryBridges (g : Graph) (evidenceId hypothesisId : String) :
    Graph :=
  match mapGet g.vertices evidenceId, mapGet g.vertices hypothesisId with
  | some evidence, some hypothesis =>
    let evidenceTags := jsSetDedup evidence.metadata.disciplinary_tags
    let hypothesisTags := jsSetDedup hypothesis.metadata.disciplinary_tags
    let intersection := evidenceTags.filter (fun t => hypothesisTags.contains t)
    let semanticSimilarity :=
      calculateSemanticSimilarity evidence.content hypothesis.content
    if intersection.isEmpty && decide ((1/2 : ℚ) < semanticSimilarity) then
      let ibnId := "ibn_" ++ evidenceId ++ "_" ++ hypothesisId
      let ibnNode : Node :=
        { node_id := ibnId
          label := "Interdisciplinary Bridge"
          type := "bridge"
          content := "Bridge connecting [object Set] and [object Set]"
          confidence := [7/10, 7/10, 7/10, 7/10]
          metadata :=
            { disciplinary_tags := evidenceTags ++ hypothesisTags
              falsification_criteria := none
              impact_score := 4/5
              layer_id := "interdisciplinary"
              temporal_decay_factor := 19/20 } }
      { g with vertices := mapSet g.vertices ibnId ibnNode }
    else g
  | _, _ => g

/-- `_checkHyperedgeCreation`: contributors are sources of edges whose
target is the evidence node; a hyperedge is materialised when there are
more than two of them. -/
def checkHyperedgeCreation (g : Graph) (evidenceId : String) : Graph :=
  let relatedNodes :=
    (g.edges.filter (fun p => p.2.target == evidenceId)).map (fun p => p.2.source)
  if 2 < relatedNodes.length then
    let hyperedgeId := "he_" ++ evidenceId
    let he : Hyperedge :=
      { hyperedge_id := hyperedgeId, nodes := relatedNodes, target := evidenceId }
    { g with hyperedges := mapSet g.hyperedges hyperedgeId he }
  else g

/-- `_applyTemporalDecay`: scale the node's confidence by
`temporal_decay_factor ^ ageDays` (`Math.pow(factor, ageHours/24)` taken at
a whole number of days; within `integrateEvidence` the age is 0).  The
scaled components are stored without any clamping. -/
def applyTemporalDecay (g : Graph) (nodeId : String) (ageDays : ℕ) : Graph :=
  match mapGet g.vertices nodeId with
  | none => g
  | some node =>
    let decayFactor := jsOrQ node.metadata.temporal_decay_factor (19/20)
    let decay := decayFactor ^ ageDays
    let node2 : Node := { node with confidence := node.confidence.map (fun c => c * decay) }
    { g with vertices := mapSet g.vertices nodeId node2 }

/-- Result record of `integrateEvidence`. -/
structure IntegrateResult where
  evidence_id : String
  updated_confidence : List ℚ
  current_stage : ℕ
  deriving DecidableEq, Repr

/-- Stage 4 `integrateEvidence` of `index-backup.js`.  The fresh evidence
node id (a uuid fragment in the source) is passed explicitly.  The call
requires `currentStage === 3` and sets the stage to 4, creates the evidence
node and the typed edge, applies the multiplicative confidence update to
the target hypothesis with clamping into [0.01, 0.99], then runs bridge
detection, hyperedge detection and temporal decay (age 0) on the new
evidence node. -/
def integrateEvidence (g : Graph) (hypothesisNodeId : String)
    (evidence : EvidenceInput) (evidenceId : String) :
    Except GotError (Graph × IntegrateResult) :=
  if g.currentStage ≠ 3 then .error (.stageViolation g.currentStage 3)
  else
    match mapGet g.vertices hypothesisNodeId with
    | none => .error (.nodeNotFound hypothesisNodeId)
    | some hypothesis0 =>
      let evidenceNode : Node :=
        { node_id := evidenceId
          label := jsOrStr evidence.title "Evidence"
          type := "evidence"
          content := evidence.content
          confidence := evidence.confidence
          metadata :=
            { disciplinary_tags := evidence.disciplinary_tags
              falsification_criteria := none
              impact_score := jsOrOptQ evidence.impact_score (1/2)
              layer_id := "empirical"
              temporal_decay_factor := 19/20 } }
      let g1 := { g with vertices := mapSet g.vertices evidenceId evidenceNode }
      let edgeId := "e_" ++ evidenceId ++ "_" ++ hypothesisNodeId
      let edgeType := jsOrStr evidence.relationship "Supportive"
      let newEdge : Edge :=
        { edge_id := edgeId, source := evidenceId,
          target := hypothesisNodeId, edge_type := edgeType }
      let g2 := { g1 with edges := mapSet g1.edges edgeId newEdge }
      let hypothesis := (mapGet g2.vertices hypothesisNodeId).getD hypothesis0
      let updateFactor := calculateBayesianUpdate evidence edgeType
      let newConfidence :=
        List.zipWith (fun c f => min (99/100) (max (1/100) (c * f)))
          hypothesis.confidence updateFactor
      let updatedHypothesis : Node := { hypothesis with confidence := newConfidence }
      let g3 := { g2 with vertices := mapSet g2.vertices hypothesisNodeId updatedHypothesis }
      let g4 := checkInterdisciplinaryBridges g3 evidenceId hypothesisNodeId
      let g5 := checkHyperedgeCreation g4 evidenceId
      let g6 := applyTemporalDecay g5 evidenceId 0
      let g7 := { g6 with currentStage := 4 }
      .ok (g7, { evidence_id := evidenceId
                 updated_confidence := newConfidence
                 current_stage := 4 })

/-- Mean of the confidence 4-vector
(`confidence.reduce((a,b) => a+b, 0) / 4`). -/
def avgConfidence (n : Node) : ℚ := n.confidence.sum / 4

/-- The pruning predicate of `pruneAndMergeNodes`: never the root `n0`;
mean confidence below the pruning threshold AND impact (read with the
`|| 0.5` fallback) below 0.3; and a `hypothesis` node is only pruned when
its falsification criteria are absent (a hypothesis carrying criteria is
kept even below both thresholds). -/
def pruneCond (thr : ℚ) (nodeId : String) (n : Node) : Bool :=
  nodeId != "n0" &&
  decide (avgConfidence n < thr) &&
  decide (jsOrQ n.metadata.impact_score (1/2) < 3/10) &&
  !(n.type == "hypothesis" && jsTruthyStr n.metadata.falsification_criteria)

/-- `_removeNode`: delete every edge incident to the node, then the node
itself. -/
def removeNode (g : Graph) (nodeId : String) : Graph :=
  { g with
    edges := g.edges.filter (fun p => !(p.2.source == nodeId || p.2.target == nodeId))
    vertices := g.vertices.filter (fun p => p.1 != nodeId) }

/-- The pruning loop of `pruneAndMergeNodes`: iterate over the snapshot of
vertex ids, removing each one that satisfies `pruneCond` and recording it. -/
def prunePass (thr : ℚ) : Graph → List String → List String → Graph × List String
  | g, [], acc => (g, acc)
  | g, id :: rest, acc =>
    match mapGet g.vertices id with
    | none => prunePass thr g rest acc
    | some node =>
      if pruneCond thr id node then
        prunePass thr (removeNode g id) rest (acc ++ [id])
      else prunePass thr g rest acc

/-- `_mergeNodes`: build the merged node (component-wise max confidence,
tag-set union, max impact, concatenated content), rewire every edge end
that referenced either original to the merged id, remove both originals
(whose incident edges were all just rewired away from them), and insert
the merged node. -/
def mergeNodes (g : Graph) (nodeId1 nodeId2 : String) : Graph :=
  match mapGet g.vertices nodeId1, mapGet g.vertices nodeId2 with
  | some node1, some node2 =>
    let mergedId := "merged_" ++ nodeId1 ++ "_" ++ nodeId2
    let mergedNode : Node :=
      { node_id := mergedId
        label := node1.label ++ " + " ++ node2.label
        type := node1.type
        content := node1.content ++ " | " ++ node2.content
        confidence := List.zipWith max node1.confidence node2.confidence
        metadata :=
          { disciplinary_tags :=
              jsSetDedup (node1.metadata.disciplinary_tags ++ node2.metadata.disciplinary_tags)
            falsification_criteria := none
            impact_score := max node1.metadata.impact_score node2.metadata.impact_score
            layer_id := "base"
            temporal_decay_factor := 19/20 } }
    let rewired := g.edges.map (fun p =>
      (p.1, { p.2 with
        source := if p.2.source == nodeId1 || p.2.source == nodeId2 then mergedId else p.2.source
        target := if p.2.target == nodeId1 || p.2.target == nodeId2 then mergedId else p.2.target }))
    let g1 := removeNode (removeNode { g with edges := rewired } nodeId1) nodeId2
    { g1 with vertices := mapSet g1.vertices mergedId mergedNode }
  | _, _ => g

/-- One merge record of the `pruneAndMergeNodes` report. -/
structure MergeRec where
  merged_id : String
  original : String × String
  deriving DecidableEq, Repr

/-- The inner `j` loop of the merging pass.  `remaining` is the live
`remainingNodes` array; a merge splices index `j` out and re-examines the
same index; both node ids are looked up in the current vertex map, and a
lookup of an id that an earlier merge removed is the JS
`TypeError: Cannot read properties of undefined` (reading `.type`). -/
def mergeInner (mthr : ℚ) :
    ℕ → Graph → List String → ℕ → ℕ → List MergeRec →
    Except GotError (Graph × List String × List MergeRec)
  | 0, _, _, _, _, _ => .error .outOfFuel
  | fuel + 1, g, remaining, i, j, acc =>
    if j < remaining.length then
      let id1 := remaining.getD i ""
      let id2 := remaining.getD j ""
      match mapGet g.vertices id1, mapGet g.vertices id2 with
      | some node1, some node2 =>
        if node1.type == node2.type then
          if mthr ≤ calculateSemanticSimilarity node1.content node2.content then
            let mergedId := "merged_" ++ id1 ++ "_" ++ id2
            mergeInner mthr fuel (mergeNodes g id1 id2) (remaining.eraseIdx j) i j
              (acc ++ [{ merged_id := mergedId, original := (id1, id2) }])
          else mergeInner mthr fuel g remaining i (j + 1) acc
        else mergeInner mthr fuel g remaining i (j + 1) acc
      | _, _ => .error .typeError
    else .ok (g, remaining, acc)

/-- The outer `i` loop of the merging pass. -/
def mergeOuter (mthr : ℚ) :
    ℕ → Graph → List String → ℕ → List MergeRec →
    Except GotError (Graph × List MergeRec)
  | 0, _, _, _, _ => .error .outOfFuel
  | fuel + 1, g, remaining, i, acc =>
    if i < remaining.length then
      match mergeInner mthr (fuel + 1) g remaining i (i + 1) acc with
      | .error e => .error e
      | .ok (g', remaining', acc') => mergeOuter mthr fuel g' remaining' (i + 1) acc'
    else .ok (g, acc)

/-- Result record of `pruneAndMergeNodes`. -/
structure PruneMergeResult where
  pruned_nodes : List String
  merged_nodes : List MergeRec
  current_stage : ℕ
  deriving DecidableEq, Repr

/-- Stage 5 `pruneAndMergeNodes`: requires stage 4; prunes per `pruneCond`
over a snapshot of vertex ids, then runs the pairwise merging loops over a
snapshot of the surviving ids, and sets the stage to 5.  The loop fuel is
ample for the loop bounds of the source (`outOfFuel` is unreachable on the
inputs considered). -/
def pruneAndMergeNodes (g : Graph) (pruningThreshold mergingThreshold : ℚ) :
    Except GotError (Graph × PruneMergeResult) :=
  if g.currentStage ≠ 4 then .error (.stageViolation g.currentStage 4)
  else
    let pruned := prunePass pruningThreshold g (g.vertices.map Prod.fst) []
    let g1 := pruned.1
    let remaining := g1.vertices.map Prod.fst
    let fuel := (remaining.length + 2) * (remaining.length + 2)
    match mergeOuter mergingThreshold fuel g1 remaining 0 [] with
    | .error e => .error e
    | .ok (g2, merged) =>
      .ok ({ g2 with currentStage := 5 },
           { pruned_nodes := pruned.2, merged_nodes := merged, current_stage := 5 })

/-- Extraction criteria of `extractSubgraphs` with their source defaults. -/
structure ExtractCriteria where
  confidence_threshold : ℚ
  impact_threshold : ℚ
  node_types : List String
  edge_patterns : List String
  discipline_focus : List String
  layer_filter : List String
  include_bridges : Bool
  deriving DecidableEq, Repr

/-- The default extraction criteria of the source. -/
def defaultCriteria : ExtractCriteria :=
  { confidence_threshold := 1/2
    impact_threshold := 3/5
    node_types := []
    edge_patterns := []
    discipline_focus := []
    layer_filter := []
    include_bridges := true }

/-- Node selection filter of `extractSubgraphs`: thresholds on mean
confidence and impact plus the optional type/layer/discipline filters, and
bridge nodes are always included when `include_bridges` is set. -/
def nodeSelected (c : ExtractCriteria) (n : Node) : Bool :=
  (decide (c.confidence_threshold ≤ avgConfidence n) &&
   decide (c.impact_threshold ≤ jsOrQ n.metadata.impact_score (1/2)) &&
   (c.node_types.isEmpty || c.node_types.contains n.type) &&
   (c.layer_filter.isEmpty || c.layer_filter.contains n.metadata.layer_id) &&
   (c.discipline_focus.isEmpty ||
     n.metadata.disciplinary_tags.any (fun t => c.discipline_focus.contains t)))
  || (c.include_bridges && n.type == "bridge")

/-- Topology record of `_calculateSubgraphTopology`. -/
structure TopologyMetrics where
  density : ℚ
  average_degree : ℚ
  node_count : ℕ
  edge_count : ℕ
  deriving DecidableEq, Repr

/-- `_calculateSubgraphTopology`: density `2E/(N(N-1))` for `N > 1` else 0,
average degree `2E/N` for `N > 0` else 0. -/
def calculateSubgraphTopology (nodeCount edgeCount : ℕ) : TopologyMetrics :=
  { density :=
      if 1 < nodeCount then
        (2 * edgeCount : ℚ) / ((nodeCount : ℚ) * ((nodeCount : ℚ) - 1))
      else 0
    average_degree := if 0 < nodeCount then (2 * edgeCount : ℚ) / (nodeCount : ℚ) else 0
    node_count := nodeCount
    edge_count := edgeCount }

/-- Result record of `extractSubgraphs` (selected node and edge ids plus
the topology metrics of the induced subgraph). -/
structure ExtractResult where
  nodes : List String
  edges : List String
  topology : TopologyMetrics
  current_stage : ℕ
  deriving DecidableEq, Repr

/-- Stage 6 `extractSubgraphs`: requires stage 5; selects nodes by the
criteria, edges whose two endpoints are both selected (and whose type
matches the optional allow-list), computes the topology metrics of the
selection and sets the stage to 6. -/
def extractSubgraphs (g : Graph) (c : ExtractCriteria) :
    Except GotError (Graph × ExtractResult) :=
  if g.currentStage ≠ 5 then .error (.stageViolation g.currentStage 5)
  else
    let selN := g.vertices.filter (fun p => nodeSelected c p.2)
    let selE := g.edges.filter (fun p =>
      (selN.any (fun q => q.1 == p.2.source)) &&
      (selN.any (fun q => q.1 == p.2.target)) &&
      (c.edge_patterns.isEmpty || c.edge_patterns.contains p.2.edge_type))
    let topo := calculateSubgraphTopology selN.length selE.length
    .ok ({ g with currentStage := 6 },
         { nodes := selN.map Prod.fst
           edges := selE.map Prod.fst
           topology := topo
           current_stage := 6 })

/-- The root node `n0` as created by `initialize` of `index-backup.js`,
used in the concrete graphs below. -/
def exRoot : Node :=
  { node_id := "n0"
    label := "Task Understanding"
    type := "root"
    content := "task"
    confidence := [4/5, 4/5, 4/5, 4/5]
    metadata :=
      { disciplinary_tags := ["immunology", "dermatology"]
        falsification_criteria := none
        impact_score := 4/5
        layer_id := "base"
        temporal_decay_factor := 19/20 } }

/-- Hypothesis-node builder for the concrete graphs below (the shape
produced by `generateHypotheses` with no falsification criteria). -/
def exHyp (id content : String) (conf : List ℚ) (tags : List String) : Node :=
  { node_id := id
    label := "Hypothesis"
    type := "hypothesis"
    content := content
    confidence := conf
    metadata :=
      { disciplinary_tags := tags
        falsification_criteria := none
        impact_score := 3/5
        layer_id := "theoretical"
        temporal_decay_factor := 19/20 } }

/-- A stage-3 graph holding the root and one hypothesis node. -/
def exGraph3 (h : Node) : Graph :=
  { vertices := [("n0", exRoot), (h.node_id, h)]
    edges := []
    hyperedges := []
    currentStage := 3 }

/-- Evidence-input builder (`Supportive` relationship, no caller-supplied
statistical power, info metrics or impact). -/
def exEvidence (content : String) (conf : List ℚ) (tags : List String) :
    EvidenceInput :=
  { title := none
    content := content
    confidence := conf
    relationship := some "Supportive"
    disciplinary_tags := tags
    statistical_power_power := none
    info_metrics_novelty_score := none
    impact_score := none }

/-- Extract the resulting graph of an `integrateEvidence` call (the given
default is returned in the error case, which the theorems rule out). -/
def evidenceResultGraph (r : Except GotError (Graph × IntegrateResult))
    (d : Graph) : Graph :=
  match r with
  | .ok p => p.1
  | .error _ => d

/-- Extract the resulting graph of a `pruneAndMergeNodes` call. -/
def pruneResultGraph (r : Except GotError (Graph × PruneMergeResult))
    (d : Graph) : Graph :=
  match r with
  | .ok p => p.1
  | .error _ => d

/-- The stage-3 graph of the C1 scenario and its first evidence call. -/
def c1Graph3 : Graph := exGraph3 (exHyp "3.1.1" "overlap" [1/2, 1/2, 1/2, 1/2] ["biology"])

/-- Evidence input of the C1 scenario (word-disjoint from the hypothesis
content, so no bridge node is involved). -/
def c1Evidence : EvidenceInput := exEvidence "zzz" [4/5, 4/5, 4/5, 4/5] []

/-- The graph after the first (successful) `integrateEvidence` call of the
C1 scenario. -/
def c1Graph4 : Graph :=
  evidenceResultGraph (integrateEvidence c1Graph3 "3.1.1" c1Evidence "ev1") c1Graph3

/-- C1: the first `integrateEvidence` call on a stage-3 graph succeeds and
moves the graph to stage 4, the target hypothesis still exists, yet the
very next `integrateEvidence` call naming that hypothesis fails with a
stage violation (current 4, expected 3) instead of succeeding — the
"adaptive loop" of P1.4 can run at most once. -/
theorem c1_repeated_integrate_fails :
    (integrateEvidence c1Graph3 "3.1.1" c1Evidence "ev1").isOk = true ∧
    c1Graph4.currentStage = 4 ∧
    (mapGet c1Graph4.vertices "3.1.1").isSome = true ∧
    integrateEvidence c1Graph4 "3.1.1" c1Evidence "ev2" =
      .error (.stageViolation 4 3) := by decide

/-- The stage-3 graph of the C2 counterexample. -/
def c2Graph3 : Graph := exGraph3 (exHyp "3.1.1" "hyp" [1/2, 1/2, 1/2, 1/2] [])

/-- Evidence of the C2 counterexample: its single 8-letter word makes the
lexical-novelty heuristic return 1, while no `info_metrics` field is
supplied. -/
def c2Evidence : EvidenceInput := exEvidence "abcdefgh" [4/5, 4/5, 4/5, 4/5] []

/-- C2 counterexample: on this call the lexical-novelty heuristic of the
evidence content is 1, so the claimed formula
`c' = clamp(c * (1 + mean * power * noveltyHeuristic * 0.3), 0.01, 0.99)`
predicts 0.596 for each component, but the code updates every component to
0.548: `_calculateBayesianUpdate` reads `evidence.info_metrics?.novelty_score`
from the raw input (absent here, so 0.5) and never consults the computed
heuristic. -/
theorem c2_novelty_not_heuristic :
    assessNovelty c2Evidence.content = 1 ∧
    (integrateEvidence c2Graph3 "3.1.1" c2Evidence "ev1").map
      (fun p => p.2.updated_confidence) = .ok (List.replicate 4 (137/250)) ∧
    (137/250 : ℚ) ≠
      min (99/100) (max (1/100)
        ((1/2) * (1 + (c2Evidence.confidence.sum / 4) * (4/5) *
          assessNovelty c2Evidence.content * (3/10)))) := by decide

/-- The stage-3 graph of the C3 counterexample. -/
def c3Graph3 : Graph := exGraph3 (exHyp "h1" "hyp" [1/2, 1/2, 1/2, 1/2] [])

/-- Evidence of the C3 counterexample: confidence components 0.005, inside
[0,1] (legal at creation) but below the claimed post-update floor 0.01. -/
def c3Evidence : EvidenceInput := exEvidence "zzz" [1/200, 1/200, 1/200, 1/200] []

/-- The graph after the C3 counterexample call. -/
def c3Graph4 : Graph :=
  evidenceResultGraph (integrateEvidence c3Graph3 "h1" c3Evidence "evx") c3Graph3

/-- C3 counterexample: `integrateEvidence` applies temporal decay to the
evidence node it creates, yet afterwards that node's confidence components
are 0.005 < 0.01 — the decay multiplication does not clamp, so the claimed
invariant "every component lies in [0.01, 0.99] after any update" fails
while the creation-time bound [0,1] holds. -/
theorem c3_decay_below_floor :
    (integrateEvidence c3Graph3 "h1" c3Evidence "evx").isOk = true ∧
    (mapGet c3Graph4.vertices "evx").map Node.confidence =
      some [1/200, 1/200, 1/200, 1/200] ∧
    ¬ ((1/100 : ℚ) ≤ 1/200) := by decide

/-- The stage-4 graph of the C4 counterexample: the root plus one
hypothesis with mean confidence 0.1 (below the 0.2 threshold), no
falsification criteria, and impact 0.6 (not below 0.3). -/
def c4Graph : Graph :=
  { vertices := [("n0", exRoot), ("h1", exHyp "h1" "uniqueh" [1/10, 1/10, 1/10, 1/10] [])]
    edges := []
    hyperedges := []
    currentStage := 4 }

/-- C4 counterexample: the hypothesis `h1` meets the confidence threshold
alone (mean 0.1 < 0.2) and lacks falsification criteria, so the claim says
it is pruned unconditionally; but `pruneAndMergeNodes` keeps it, because
the code additionally requires `impact_score < 0.3` (here 0.6) even for
falsification-free hypotheses. -/
theorem c4_falsifiability_not_unconditional :
    avgConfidence (exHyp "h1" "uniqueh" [1/10, 1/10, 1/10, 1/10] []) < 1/5 ∧
    (exHyp "h1" "uniqueh" [1/10, 1/10, 1/10, 1/10] []).type = "hypothesis" ∧
    (exHyp "h1" "uniqueh" [1/10, 1/10, 1/10, 1/10] []).metadata.falsification_criteria = none ∧
    (pruneAndMergeNodes c4Graph (1/5) (4/5)).map (fun p => p.2.pruned_nodes) = .ok [] ∧
    (mapGet (pruneResultGraph (pruneAndMergeNodes c4Graph (1/5) (4/5)) c4Graph).vertices
      "h1").isSome = true := by decide

/-- The stage-3 graph of the C6 scenario: hypothesis tagged `biology` with
content `overlap`. -/
def c6Graph3 : Graph := exGraph3 (exHyp "3.1.1" "overlap" [1/2, 1/2, 1/2, 1/2] ["biology"])

/-- Evidence of the C6 scenario: tagged `physics` (disjoint from the
hypothesis tags) with identical content, so the Jaccard similarity is 1. -/
def c6Evidence : EvidenceInput := exEvidence "overlap" [7/10, 7/10, 7/10, 7/10] ["physics"]

/-- The graph after the C6 scenario call. -/
def c6Graph4 : Graph :=
  evidenceResultGraph (integrateEvidence c6Graph3 "3.1.1" c6Evidence "ev1") c6Graph3

/-- C6: with disjoint tag sets and similarity 1 > 0.5 the bridge node is
created in the `interdisciplinary` layer with the union of both tag sets —
but not a single edge incident to it exists in the resulting graph, so the
bridge node is unreachable, contrary to the claimed connecting edges. -/
theorem c6_bridge_has_no_edges :
    (integrateEvidence c6Graph3 "3.1.1" c6Evidence "ev1").isOk = true ∧
    (mapGet c6Graph4.vertices "ibn_ev1_3.1.1").map Node.type = some "bridge" ∧
    (mapGet c6Graph4.vertices "ibn_ev1_3.1.1").map (fun n => n.metadata.layer_id) =
      some "interdisciplinary" ∧
    (mapGet c6Graph4.vertices "ibn_ev1_3.1.1").map (fun n => n.metadata.disciplinary_tags) =
      some ["physics", "biology"] ∧
    c6Graph4.edges.filter (fun p =>
      p.2.source == "ibn_ev1_3.1.1" || p.2.target == "ibn_ev1_3.1.1") = [] := by decide

/-- The stage-4 graph of the C10 scenario: the root plus three hypothesis
nodes with identical content (pairwise similarity 1 ≥ 0.8), none of them
prunable. -/
def c10Graph : Graph :=
  { vertices :=
      [("n0", exRoot),
       ("ha", exHyp "ha" "same" [1/2, 1/2, 1/2, 1/2] []),
       ("hb", exHyp "hb" "same" [1/2, 1/2, 1/2, 1/2] []),
       ("hc", exHyp "hc" "same" [1/2, 1/2, 1/2, 1/2] [])]
    edges := []
    hyperedges := []
    currentStage := 4 }

/-- C10: with three pairwise-similar same-kind nodes the merging pass
first merges `ha` and `hb` (removing both from the vertex map) but leaves
the stale id `ha` at index 1 of its `remainingNodes` array; the next inner
iteration reads that removed id back (`vertices.get` returns `undefined`)
and the operation aborts with the JS `TypeError` instead of completing. -/
theorem c10_merge_pass_reads_stale_id :
    pruneAndMergeNodes c10Graph (1/5) (4/5) = .error .typeError := by decide


theorem mapGet_cons {α : Type} (p : String × α) (rest : List (String × α)) (k : String) :
    mapGet (p :: rest) k = if p.1 = k then some p.2 else mapGet rest k := by
  by_cases h : p.1 = k
  · rw [if_pos h]
    unfold mapGet
    rw [List.find?_cons_of_pos _ (by simp [h])]
    rfl
  · rw [if_neg h]
    unfold mapGet
    rw [List.find?_cons_of_neg _ (by simp [h])]

theorem mapSet_cons {α : Type} (p : String × α) (rest : List (String × α))
    (k : String) (v : α) :
    mapSet (p :: rest) k v =
      if p.1 = k then (k, v) :: rest else p :: mapSet rest k v := by
  by_cases h : p.1 = k
  · rw [if_pos h]
    simp [mapSet, h]
  · rw [if_neg h]
    simp [mapSet, h]

theorem mapGet_set_eq {α : Type} (m : List (String × α)) (k : String) (v : α) :
    mapGet (mapSet m k v) k = some v := by
  induction m with
  | nil => simp [mapSet, mapGet_cons]
  | cons p rest ih =>
    rw [mapSet_cons]
    by_cases h : p.1 = k
    · rw [if_pos h, mapGet_cons, if_pos rfl]
    · rw [if_neg h, mapGet_cons, if_neg h, ih]

theorem mapGet_set_ne {α : Type} (m : List (String × α)) (k k' : String) (v : α)
    (h : k' ≠ k) : mapGet (mapSet m k v) k' = mapGet m k' := by
  induction m with
  | nil => simp [mapSet, mapGet_cons, Ne.symm h, mapGet]
  | cons p rest ih =>
    rw [mapSet_cons]
    by_cases hp : p.1 = k
    · rw [if_pos hp, mapGet_cons, mapGet_cons, if_neg (Ne.symm h), if_neg (hp ▸ Ne.symm h ∘ Eq.symm ∘ Eq.symm)]
    · rw [if_neg hp, mapGet_cons, mapGet_cons, ih]

theorem mapGet_eq_none_of_not_mem {α : Type} (m : List (String × α)) (k : String)
    (h : k ∉ m.map Prod.fst) : mapGet m k = none := by
  induction m with
  | nil => rfl
  | cons p rest ih =>
    simp only [List.map_cons, List.mem_cons, not_or] at h
    rw [mapGet_cons, if_neg (fun hh => h.1 hh.symm), ih h.2]

theorem mem_of_mapGet_some {α : Type} (m : List (String × α)) (k : String) (v : α)
    (h : mapGet m k = some v) : k ∈ m.map Prod.fst := by
  induction m with
  | nil => simp [mapGet, List.find?] at h
  | cons p rest ih =>
    rw [mapGet_cons] at h
    by_cases hp : p.1 = k
    · simp [← hp]
    · rw [if_neg hp] at h
      simp [ih h]

theorem mapGet_filter_key {α : Type} (m : List (String × α)) (kdel k : String) :
    mapGet (m.filter (fun p => p.1 != kdel)) k =
      if k = kdel then none else mapGet m k := by
  induction m with
  | nil =>
    simp only [List.filter_nil]
    by_cases hk : k = kdel
    · rw [if_pos hk]
      rfl
    · rw [if_neg hk]
  | cons p rest ih =>
    by_cases hp : p.1 = kdel
    · rw [List.filter_cons_of_neg (by simp [hp]), ih, mapGet_cons]
      by_cases hk : k = kdel
      · rw [if_pos hk, if_pos hk]
      · rw [if_neg hk, if_neg hk, if_neg (fun hh : p.1 = k => hk (hh ▸ hp))]
    · rw [List.filter_cons_of_pos (by simp [hp]), mapGet_cons, mapGet_cons, ih]
      by_cases hpk : p.1 = k
      · rw [if_pos hpk, if_pos hpk, if_neg (fun hh : k = kdel => hp (hpk.symm ▸ hh))]
      · rw [if_neg hpk, if_neg hpk]

theorem mapGet_filter_subset {α : Type} (m : List (String × α))
    (q : String × α → Bool) (k : String) (v : α)
    (hnodup : (m.map Prod.fst).Nodup) (h : mapGet (m.filter q) k = some v) :
    mapGet m k = some v := by
  induction m with
  | nil => simp [mapGet, List.find?] at h
  | cons p rest ih =>
    simp only [List.map_cons, List.nodup_cons] at hnodup
    by_cases hq : q p
    · rw [List.filter_cons_of_pos hq, mapGet_cons] at h
      rw [mapGet_cons]
      by_cases hp : p.1 = k
      · rw [if_pos hp] at h
        rw [if_pos hp]
        exact h
      · rw [if_neg hp] at h
        rw [if_neg hp]
        exact ih hnodup.2 h
    · rw [List.filter_cons_of_neg (by simpa using hq)] at h
      rw [mapGet_cons]
      by_cases hp : p.1 = k
      · exfalso
        have hmem := mem_of_mapGet_some _ _ _ (ih hnodup.2 h)
        exact hnodup.1 (hp ▸ hmem)
      · rw [if_neg hp]
        exact ih hnodup.2 h

theorem mapGet_map_val {α β : Type} (m : List (String × α)) (f : α → β) (k : String) :
    mapGet (m.map (fun p => (p.1, f p.2))) k = (mapGet m k).map f := by
  induction m with
  | nil => rfl
  | cons p rest ih =>
    rw [List.map_cons, mapGet_cons, mapGet_cons]
    by_cases hp : p.1 = k
    · rw [if_pos hp, if_pos hp]
      rfl
    · rw [if_neg hp, if_neg hp, ih]

theorem keys_filter_nodup {α : Type} (m : List (String × α)) (q : String × α → Bool)
    (h : (m.map Prod.fst).Nodup) : ((m.filter q).map Prod.fst).Nodup :=
  ((List.filter_sublist m).map Prod.fst).nodup h

theorem string_ne_of_length {a b : String} (h : a.length ≠ b.length) : a ≠ b :=
  fun hh => h (congrArg String.length hh)

theorem ibn_id_ne_hypothesis_id (evId hId : String) :
    ("ibn_" ++ evId ++ "_" ++ hId) ≠ hId := by
  apply string_ne_of_length
  have h4 : ("ibn_" : String).length = 4 := rfl
  have h1 : ("_" : String).length = 1 := rfl
  simp only [String.length_append, h4, h1]
  omega

theorem merged_id_ne_first (id1 id2 : String) :
    ("merged_" ++ id1 ++ "_" ++ id2) ≠ id1 := by
  apply string_ne_of_length
  have h7 : ("merged_" : String).length = 7 := rfl
  have h1 : ("_" : String).length = 1 := rfl
  simp only [String.length_append, h7, h1]
  omega

theorem merged_id_ne_second (id1 id2 : String) :
    ("merged_" ++ id1 ++ "_" ++ id2) ≠ id2 := by
  apply string_ne_of_length
  have h7 : ("merged_" : String).length = 7 := rfl
  have h1 : ("_" : String).length = 1 := rfl
  simp only [String.length_append, h7, h1]
  omega

theorem bridges_edges_eq (g : Graph) (e h : String) :
    (checkInterdisciplinaryBridges g e h).edges = g.edges := by
  unfold checkInterdisciplinaryBridges
  cases mapGet g.vertices e with
  | none => rfl
  | some ev =>
    cases mapGet g.vertices h with
    | none => rfl
    | some hyp =>
      dsimp only
      split <;> rfl

theorem bridges_vertices_get (g : Graph) (e h k : String)
    (hk : k ≠ "ibn_" ++ e ++ "_" ++ h) :
    mapGet (checkInterdisciplinaryBridges g e h).vertices k = mapGet g.vertices k := by
  unfold checkInterdisciplinaryBridges
  cases mapGet g.vertices e with
  | none => rfl
  | some ev =>
    cases mapGet g.vertices h with
    | none => rfl
    | some hyp =>
      dsimp only
      split
      · exact mapGet_set_ne _ _ _ _ hk
      · rfl

theorem hyper_vertices_eq (g : Graph) (e : String) :
    (checkHyperedgeCreation g e).vertices = g.vertices := by
  unfold checkHyperedgeCreation
  dsimp only
  split <;> rfl

theorem hyper_edges_eq (g : Graph) (e : String) :
    (checkHyperedgeCreation g e).edges = g.edges := by
  unfold checkHyperedgeCreation
  dsimp only
  split <;> rfl

theorem decay_vertices_get_ne (g : Graph) (n k : String) (age : ℕ) (h : k ≠ n) :
    mapGet (applyTemporalDecay g n age).vertices k = mapGet g.vertices k := by
  unfold applyTemporalDecay
  cases mapGet g.vertices n with
  | none => rfl
  | some node =>
    dsimp only
    exact mapGet_set_ne _ _ _ _ h

theorem decay_edges_eq (g : Graph) (n : String) (age : ℕ) :
    (applyTemporalDecay g n age).edges = g.edges := by
  unfold applyTemporalDecay
  cases mapGet g.vertices n with
  | none => rfl
  | some node => rfl

theorem zipWith_replicate_of_length_le {α β γ : Type} (f : α → β → γ)
    (l : List α) (b : β) (n : ℕ) (h : l.length ≤ n) :
    List.zipWith f l (List.replicate n b) = l.map (fun a => f a b) := by
  induction l generalizing n with
  | nil => simp
  | cons a rest ih =>
    cases n with
    | zero => simp at h
    | succ n =>
      rw [List.replicate_succ]
      simp only [List.zipWith_cons_cons, List.map_cons]
      rw [ih n (by simpa using h)]

/-- The relationship multiplier exactly as the claim words it (the
comparison target for the code's `switch` on the edge type):
Supportive → +1, Contradictory → −1, Correlative → +0.5, Causal → +1.2,
any other relationship → +0.3. -/
def specRelationshipMultiplier (edgeType : String) : ℚ :=
  if edgeType == "Supportive" then 1
  else if edgeType == "Contradictory" then -1
  else if edgeType == "Correlative" then 1/2
  else if edgeType == "Causal" then 6/5
  else 3/10

theorem calculateBayesianUpdate_eq_multiplier (ev : EvidenceInput) (edgeType : String) :
    calculateBayesianUpdate ev edgeType =
      List.replicate 4 (1 + (ev.confidence.sum / 4) *
        jsOrOptQ ev.statistical_power_power (4/5) *
        jsOrOptQ ev.info_metrics_novelty_score (1/2) * (3/10) *
        specRelationshipMultiplier edgeType) := by
  have hmul : ∀ x : ℚ,
      (if edgeType == "Supportive" then 1 + x
       else if edgeType == "Contradictory" then 1 - x
       else if edgeType == "Correlative" then 1 + x * (1/2)
       else if edgeType == "Causal" then 1 + x * (6/5)
       else 1 + x * (3/10)) = 1 + x * specRelationshipMultiplier edgeType := by
    intro x
    unfold specRelationshipMultiplier
    by_cases h1 : edgeType == "Supportive" <;> by_cases h2 : edgeType == "Contradictory" <;>
      by_cases h3 : edgeType == "Correlative" <;> by_cases h4 : edgeType == "Causal" <;>
      simp only [h1, h2, h3, h4, if_true, if_false, Bool.false_eq_true] <;> try ring
  unfold calculateBayesianUpdate
  dsimp only
  rw [hmul]

/-- C2 (amended): for every `integrateEvidence` call on a stage-3 graph
whose target hypothesis exists and carries a 4-component confidence vector
and whose evidence node id is fresh, each confidence component of the
target hypothesis is updated to `clamp(c * (1 + delta), 0.01, 0.99)` with
`delta = mean(evidence.confidence) * power * noveltyScore * 0.3 * m`,
where `m` is the claimed relationship multiplier, `power` is the supplied
`statistical_power.power` defaulting to 0.8, and `noveltyScore` is the
caller-supplied `info_metrics.novelty_score` defaulting to 0.5 — not the
lexical-novelty heuristic. -/
theorem c2_amended_update_formula (g : Graph) (hId evId : String) (hyp : Node)
    (ev : EvidenceInput) (hst : g.currentStage = 3)
    (hh : mapGet g.vertices hId = some hyp)
    (hfresh : mapGet g.vertices evId = none)
    (hlen : hyp.confidence.length = 4) :
    ∃ g' res, integrateEvidence g hId ev evId = .ok (g', res) ∧
      res.evidence_id = evId ∧ res.current_stage = 4 ∧
      res.updated_confidence = hyp.confidence.map (fun c =>
        min (99/100) (max (1/100) (c * (1 + (ev.confidence.sum / 4) *
          jsOrOptQ ev.statistical_power_power (4/5) *
          jsOrOptQ ev.info_metrics_novelty_score (1/2) * (3/10) *
          specRelationshipMultiplier (jsOrStr ev.relationship "Supportive"))))) ∧
      mapGet g'.vertices hId =
        some { hyp with confidence := res.updated_confidence } := by
  have hne : evId ≠ hId := by
    intro hh2
    rw [hh2, hh] at hfresh
    exact Option.noConfusion hfresh
  unfold integrateEvidence
  rw [if_neg (by omega)]
  rw [hh]
  dsimp only
  rw [mapGet_set_ne _ _ _ _ (Ne.symm hne), hh]
  dsimp only [Option.getD_some]
  rw [calculateBayesianUpdate_eq_multiplier,
      zipWith_replicate_of_length_le _ _ _ _ (le_of_eq hlen)]
  refine ⟨_, _, rfl, rfl, rfl, rfl, ?_⟩
  dsimp only
  rw [decay_vertices_get_ne _ _ _ _ (Ne.symm hne),
      hyper_vertices_eq,
      bridges_vertices_get _ _ _ _ (Ne.symm (ibn_id_ne_hypothesis_id evId hId)),
      mapGet_set_eq]

/-- Witness for `c2_amended_update_formula`: the concrete stage-3 graph and
evidence of the C2 scenario discharge all hypotheses. -/
theorem c2_amended_update_formula_witness :
    c2Graph3.currentStage = 3 ∧
    (∃ g' res, integrateEvidence c2Graph3 "3.1.1" c2Evidence "ev1" = .ok (g', res) ∧
      res.evidence_id = "ev1" ∧ res.current_stage = 4 ∧
      res.updated_confidence =
        (exHyp "3.1.1" "hyp" [1/2, 1/2, 1/2, 1/2] []).confidence.map (fun c =>
          min (99/100) (max (1/100) (c * (1 + (c2Evidence.confidence.sum / 4) *
            jsOrOptQ c2Evidence.statistical_power_power (4/5) *
            jsOrOptQ c2Evidence.info_metrics_novelty_score (1/2) * (3/10) *
            specRelationshipMultiplier (jsOrStr c2Evidence.relationship "Supportive"))))) ∧
      mapGet g'.vertices "3.1.1" =
        some { exHyp "3.1.1" "hyp" [1/2, 1/2, 1/2, 1/2] [] with
               confidence := res.updated_confidence }) :=
  ⟨rfl, c2_amended_update_formula c2Graph3 "3.1.1" "ev1"
    (exHyp "3.1.1" "hyp" [1/2, 1/2, 1/2, 1/2] []) c2Evidence rfl (by decide)
    (by decide) (by decide)⟩

theorem mem_zipWith_clamp {l1 l2 : List ℚ} {c : ℚ}
    (h : c ∈ List.zipWith (fun c f => min (99/100) (max (1/100) (c * f))) l1 l2) :
    1/100 ≤ c ∧ c ≤ 99/100 := by
  induction l1 generalizing l2 with
  | nil => simp at h
  | cons a rest ih =>
    cases l2 with
    | nil => simp at h
    | cons b rest2 =>
      rw [List.zipWith_cons_cons, List.mem_cons] at h
      rcases h with h | h
      · subst h
        exact ⟨le_min (by norm_num) (le_max_left _ _), min_le_left _ _⟩
      · exact ih h

/-- C3 (amended): the evidence-integration update clamps every component
of the target hypothesis into [0.01, 0.99], while temporal decay merely
multiplies every component by `decayFactor ^ age ∈ (0, 1]`, so it preserves
the creation-time bounds [0, 1] but not the 0.01 floor. -/
theorem c3_amended_bounds :
    (∀ (g : Graph) (hId evId : String) (hyp : Node) (ev : EvidenceInput),
      g.currentStage = 3 → mapGet g.vertices hId = some hyp →
      ∃ g' res, integrateEvidence g hId ev evId = .ok (g', res) ∧
        ∀ c ∈ res.updated_confidence, 1/100 ≤ c ∧ c ≤ 99/100) ∧
    (∀ (g : Graph) (nodeId : String) (node : Node) (age : ℕ),
      mapGet g.vertices nodeId = some node →
      0 < node.metadata.temporal_decay_factor →
      node.metadata.temporal_decay_factor ≤ 1 →
      (∀ c ∈ node.confidence, 0 ≤ c ∧ c ≤ 1) →
      ∃ node2, mapGet (applyTemporalDecay g nodeId age).vertices nodeId = some node2 ∧
        ∀ c ∈ node2.confidence, 0 ≤ c ∧ c ≤ 1) := by
  constructor
  · intro g hId evId hyp ev hst hh
    unfold integrateEvidence
    rw [if_neg (by omega), hh]
    dsimp only
    refine ⟨_, _, rfl, ?_⟩
    intro c hc
    exact mem_zipWith_clamp hc
  · intro g nodeId node age hget hdf0 hdf1 hconf
    unfold applyTemporalDecay
    rw [hget]
    dsimp only
    refine ⟨_, mapGet_set_eq _ _ _, ?_⟩
    intro c hc
    dsimp only at hc
    rw [List.mem_map] at hc
    obtain ⟨a, ha, rfl⟩ := hc
    have hdecay : jsOrQ node.metadata.temporal_decay_factor (19/20) =
        node.metadata.temporal_decay_factor := by
      unfold jsOrQ
      rw [if_neg (ne_of_gt hdf0)]
    rw [hdecay]
    have h1 : 0 < node.metadata.temporal_decay_factor ^ age := pow_pos hdf0 age
    have h2 : node.metadata.temporal_decay_factor ^ age ≤ 1 :=
      pow_le_one₀ (le_of_lt hdf0) hdf1
    obtain ⟨ha0, ha1⟩ := hconf a ha
    refine ⟨mul_nonneg ha0 (le_of_lt h1), ?_⟩
    nlinarith

/-- Witness for `c3_amended_bounds`: part one at the C3 scenario call,
part two at the C1 stage-3 graph with a 10-day decay of hypothesis
`3.1.1`. -/
theorem c3_amended_bounds_witness :
    (c3Graph3.currentStage = 3 ∧
      ∃ g' res, integrateEvidence c3Graph3 "h1" c3Evidence "evx" = .ok (g', res) ∧
        ∀ c ∈ res.updated_confidence, 1/100 ≤ c ∧ c ≤ 99/100) ∧
    (∃ node2, mapGet (applyTemporalDecay c1Graph3 "3.1.1" 10).vertices "3.1.1" =
        some node2 ∧ ∀ c ∈ node2.confidence, 0 ≤ c ∧ c ≤ 1) :=
  ⟨⟨rfl, c3_amended_bounds.1 c3Graph3 "h1" "evx"
      (exHyp "h1" "hyp" [1/2, 1/2, 1/2, 1/2] []) c3Evidence rfl (by decide)⟩,
    c3_amended_bounds.2 c1Graph3 "3.1.1"
      (exHyp "3.1.1" "overlap" [1/2, 1/2, 1/2, 1/2] ["biology"]) 10 (by decide)
      (by norm_num [exHyp]) (by norm_num [exHyp]) (by decide)⟩

theorem mem_jsSetDedup_foldl (l acc : List String) (x : String) :
    x ∈ l.foldl (fun acc y => if y ∈ acc then acc else acc ++ [y]) acc ↔
      x ∈ acc ∨ x ∈ l := by
  induction l generalizing acc with
  | nil => simp
  | cons a rest ih =>
    simp only [List.foldl_cons]
    by_cases ha : a ∈ acc
    · rw [if_pos ha, ih]
      constructor
      · rintro (h | h)
        · exact Or.inl h
        · exact Or.inr (List.mem_cons_of_mem _ h)
      · rintro (h | h)
        · exact Or.inl h
        · rcases List.mem_cons.mp h with rfl | h
          · exact Or.inl ha
          · exact Or.inr h
    · rw [if_neg ha, ih]
      simp only [List.mem_append, List.mem_singleton, List.mem_cons]
      tauto

theorem mem_jsSetDedup (l : List String) (x : String) :
    x ∈ jsSetDedup l ↔ x ∈ l := by
  unfold jsSetDedup
  rw [mem_jsSetDedup_foldl]
  simp

theorem rewire_component_beq_false (s id1 id2 : String) :
    (((if s == id1 || s == id2 then "merged_" ++ id1 ++ "_" ++ id2 else s) == id1) = false) ∧
    (((if s == id1 || s == id2 then "merged_" ++ id1 ++ "_" ++ id2 else s) == id2) = false) := by
  by_cases h : (s == id1 || s == id2) = true
  · rw [if_pos h]
    exact ⟨beq_eq_false_iff_ne.mpr (merged_id_ne_first id1 id2),
           beq_eq_false_iff_ne.mpr (merged_id_ne_second id1 id2)⟩
  · rw [if_neg h]
    simp only [Bool.or_eq_true, not_or, Bool.not_eq_true] at h
    exact ⟨h.1, h.2⟩

/-- C5: merging two distinct nodes present in the graph produces the
merged node with component-wise max confidence, union tag set, max impact
and concatenated content, removes both originals, and rewires every edge
end that referenced either original id to the merged id (keeping all edge
entries). -/
theorem c5_merge_semantics (g : Graph) (id1 id2 : String) (n1 n2 : Node)
    (h1 : mapGet g.vertices id1 = some n1) (h2 : mapGet g.vertices id2 = some n2)
    (hne : id1 ≠ id2) :
    ∃ m, mapGet (mergeNodes g id1 id2).vertices ("merged_" ++ id1 ++ "_" ++ id2) = some m ∧
      m.confidence = List.zipWith max n1.confidence n2.confidence ∧
      (∀ t, t ∈ m.metadata.disciplinary_tags ↔
        t ∈ n1.metadata.disciplinary_tags ∨ t ∈ n2.metadata.disciplinary_tags) ∧
      m.metadata.impact_score = max n1.metadata.impact_score n2.metadata.impact_score ∧
      m.content = n1.content ++ " | " ++ n2.content ∧
      m.type = n1.type ∧
      mapGet (mergeNodes g id1 id2).vertices id1 = none ∧
      mapGet (mergeNodes g id1 id2).vertices id2 = none ∧
      (∀ eid, mapGet (mergeNodes g id1 id2).edges eid = (mapGet g.edges eid).map (fun e =>
        { e with
          source := if e.source == id1 || e.source == id2 then
              "merged_" ++ id1 ++ "_" ++ id2 else e.source
          target := if e.target == id1 || e.target == id2 then
              "merged_" ++ id1 ++ "_" ++ id2 else e.target })) := by
  unfold mergeNodes
  rw [h1, h2]
  dsimp only
  unfold removeNode
  dsimp only
  have hfix2 : ∀ l : List (String × Edge),
      (∀ p ∈ l, (!(p.2.source == id2 || p.2.target == id2)) = true) →
      l.filter (fun p => !(p.2.source == id2 || p.2.target == id2)) = l :=
    fun l h => List.filter_eq_self.mpr h
  have hrewire : ∀ p ∈ g.edges.map (fun p =>
      (p.1, { p.2 with
        source := if p.2.source == id1 || p.2.source == id2 then
            "merged_" ++ id1 ++ "_" ++ id2 else p.2.source
        target := if p.2.target == id1 || p.2.target == id2 then
            "merged_" ++ id1 ++ "_" ++ id2 else p.2.target })),
      (!(p.2.source == id1 || p.2.target == id1)) = true ∧
      (!(p.2.source == id2 || p.2.target == id2)) = true := by
    intro p hp
    rw [List.mem_map] at hp
    obtain ⟨q, hq, rfl⟩ := hp
    dsimp only
    rw [(rewire_component_beq_false q.2.source id1 id2).1,
        (rewire_component_beq_false q.2.source id1 id2).2,
        (rewire_component_beq_false q.2.target id1 id2).1,
        (rewire_component_beq_false q.2.target id1 id2).2]
    exact ⟨rfl, rfl⟩
  rw [List.filter_eq_self.mpr (fun p hp => (hrewire p hp).1)]
  rw [List.filter_eq_self.mpr (fun p hp => (hrewire p hp).2)]
  refine ⟨_, mapGet_set_eq _ _ _, rfl, ?_, rfl, rfl, rfl, ?_, ?_, ?_⟩
  · intro t
    dsimp only
    rw [mem_jsSetDedup, List.mem_append]
  · rw [mapGet_set_ne _ _ _ _ (Ne.symm (merged_id_ne_first id1 id2)),
        mapGet_filter_key, mapGet_filter_key]
    rw [if_neg hne, if_pos rfl]
  · rw [mapGet_set_ne _ _ _ _ (Ne.symm (merged_id_ne_second id1 id2)),
        mapGet_filter_key]
    rw [if_pos rfl]
  · intro eid
    exact mapGet_map_val g.edges (fun e =>
      { e with
        source := if e.source == id1 || e.source == id2 then
            "merged_" ++ id1 ++ "_" ++ id2 else e.source
        target := if e.target == id1 || e.target == id2 then
            "merged_" ++ id1 ++ "_" ++ id2 else e.target }) eid

/-- The two same-kind nodes of the C5 example:
confidence `[0.6, 0.6, 0.6, 0.6]` and `[0.4, 0.9, 0.4, 0.4]`. -/
def c5NodeA : Node := exHyp "a" "same" [3/5, 3/5, 3/5, 3/5] ["immunology"]

/-- Second node of the C5 example. -/
def c5NodeB : Node := exHyp "b" "same" [2/5, 9/10, 2/5, 2/5] ["genetics"]

/-- A graph holding the two C5 example nodes and one edge referencing `a`. -/
def c5Graph : Graph :=
  { vertices := [("a", c5NodeA), ("b", c5NodeB)]
    edges := [("e1", { edge_id := "e1", source := "n0", target := "a",
                       edge_type := "Supportive" })]
    hyperedges := []
    currentStage := 4 }

/-- Witness for `c5_merge_semantics`: merging the example nodes yields the
component-wise maximum `[0.6, 0.9, 0.6, 0.6]` claimed by the spec. -/
theorem c5_merge_semantics_witness :
    (∃ m, mapGet (mergeNodes c5Graph "a" "b").vertices "merged_a_b" = some m ∧
      m.confidence = List.zipWith max c5NodeA.confidence c5NodeB.confidence ∧
      (∀ t, t ∈ m.metadata.disciplinary_tags ↔
        t ∈ c5NodeA.metadata.disciplinary_tags ∨ t ∈ c5NodeB.metadata.disciplinary_tags) ∧
      m.metadata.impact_score = max c5NodeA.metadata.impact_score c5NodeB.metadata.impact_score ∧
      m.content = c5NodeA.content ++ " | " ++ c5NodeB.content ∧
      m.type = c5NodeA.type ∧
      mapGet (mergeNodes c5Graph "a" "b").vertices "a" = none ∧
      mapGet (mergeNodes c5Graph "a" "b").vertices "b" = none ∧
      (∀ eid, mapGet (mergeNodes c5Graph "a" "b").edges eid =
        (mapGet c5Graph.edges eid).map (fun e =>
          { e with
            source := if e.source == "a" || e.source == "b" then "merged_a_b" else e.source
            target := if e.target == "a" || e.target == "b" then "merged_a_b" else e.target }))) ∧
    List.zipWith max c5NodeA.confidence c5NodeB.confidence =
      [3/5, 9/10, 3/5, 3/5] :=
  ⟨c5_merge_semantics c5Graph "a" "b" c5NodeA c5NodeB (by decide) (by decide)
    (by decide), by decide⟩

theorem removeNode_vertices_get (g : Graph) (id k : String) :
    mapGet (removeNode g id).vertices k =
      if k = id then none else mapGet g.vertices k := by
  unfold removeNode
  exact mapGet_filter_key g.vertices id k

theorem prunePass_get_not_mem (thr : ℚ) (ids : List String) (k : String) :
    ∀ (g : Graph) (acc : List String), k ∉ ids →
      mapGet (prunePass thr g ids acc).1.vertices k = mapGet g.vertices k := by
  induction ids with
  | nil =>
    intro g acc _
    rfl
  | cons id rest ih =>
    intro g acc hk
    simp only [List.mem_cons, not_or] at hk
    unfold prunePass
    cases hget : mapGet g.vertices id with
    | none => exact ih _ _ hk.2
    | some node =>
      dsimp only
      by_cases hc : pruneCond thr id node
      · rw [if_pos hc, ih _ _ hk.2, removeNode_vertices_get, if_neg hk.1]
      · rw [if_neg hc]
        exact ih _ _ hk.2

theorem prunePass_get_none (thr : ℚ) (ids : List String) (k : String) :
    ∀ (g : Graph) (acc : List String), mapGet g.vertices k = none →
      mapGet (prunePass thr g ids acc).1.vertices k = none := by
  induction ids with
  | nil =>
    intro g acc h
    exact h
  | cons id rest ih =>
    intro g acc h
    unfold prunePass
    cases hget : mapGet g.vertices id with
    | none => exact ih _ _ h
    | some node =>
      dsimp only
      by_cases hc : pruneCond thr id node
      · rw [if_pos hc]
        apply ih
        rw [removeNode_vertices_get]
        by_cases hkid : k = id
        · rw [if_pos hkid]
        · rw [if_neg hkid]
          exact h
      · rw [if_neg hc]
        exact ih _ _ h

theorem prunePass_get_mem (thr : ℚ) (ids : List String) (k : String) (n : Node) :
    ∀ (g : Graph) (acc : List String), ids.Nodup → k ∈ ids →
      mapGet g.vertices k = some n →
      mapGet (prunePass thr g ids acc).1.vertices k =
        (if pruneCond thr k n then none else some n) := by
  induction ids with
  | nil =>
    intro g acc _ hk _
    simp at hk
  | cons id rest ih =>
    intro g acc hnd hk hget
    have hnd2 := List.nodup_cons.mp hnd
    rcases List.mem_cons.mp hk with heq | hkrest
    · subst heq
      unfold prunePass
      rw [hget]
      dsimp only
      by_cases hc : pruneCond thr k n
      · rw [if_pos hc, if_pos hc]
        apply prunePass_get_none
        rw [removeNode_vertices_get, if_pos rfl]
      · rw [if_neg hc, if_neg hc]
        rw [prunePass_get_not_mem thr rest k g acc hnd2.1]
        exact hget
    · have hidk : id ≠ k := fun h => hnd2.1 (h ▸ hkrest)
      unfold prunePass
      cases hget2 : mapGet g.vertices id with
      | none => exact ih g acc hnd2.2 hkrest hget
      | some node =>
        dsimp only
        by_cases hc : pruneCond thr id node
        · rw [if_pos hc]
          apply ih _ _ hnd2.2 hkrest
          rw [removeNode_vertices_get, if_neg (Ne.symm hidk)]
          exact hget
        · rw [if_neg hc]
          exact ih g acc hnd2.2 hkrest hget

theorem mapGet_filter_pred {α : Type} (m : List (String × α))
    (q : String × α → Bool) (k : String) (v : α)
    (hnodup : (m.map Prod.fst).Nodup) (h : mapGet (m.filter q) k = some v) :
    q (k, v) = true := by
  induction m with
  | nil => simp [mapGet, List.find?] at h
  | cons p rest ih =>
    simp only [List.map_cons, List.nodup_cons] at hnodup
    by_cases hq : q p
    · rw [List.filter_cons_of_pos hq, mapGet_cons] at h
      by_cases hp : p.1 = k
      · rw [if_pos hp] at h
        obtain rfl : v = p.2 := (Option.some.inj h).symm
        rw [← hp, Prod.mk.eta]
        exact hq
      · rw [if_neg hp] at h
        exact ih hnodup.2 h
    · rw [List.filter_cons_of_neg (by simpa using hq)] at h
      by_cases hp : p.1 = k
      · exfalso
        have hmem := mem_of_mapGet_some _ _ _
          (mapGet_filter_subset rest q k v hnodup.2 h)
        exact hnodup.1 (hp ▸ hmem)
      · exact ih hnodup.2 h

theorem prunePass_edges_subset (thr : ℚ) (ids : List String) :
    ∀ (g : Graph) (acc : List String) (eid : String) (e : Edge),
      (g.edges.map Prod.fst).Nodup →
      mapGet (prunePass thr g ids acc).1.edges eid = some e →
      mapGet g.edges eid = some e := by
  induction ids with
  | nil =>
    intro g acc eid e _ h
    exact h
  | cons id rest ih =>
    intro g acc eid e he h
    unfold prunePass at h
    cases hget : mapGet g.vertices id with
    | none =>
      rw [hget] at h
      exact ih _ _ _ _ he h
    | some node =>
      rw [hget] at h
      dsimp only at h
      by_cases hc : pruneCond thr id node
      · rw [if_pos hc] at h
        have h2 := ih _ _ _ _ (keys_filter_nodup _ _ he) h
        unfold removeNode at h2
        dsimp only at h2
        exact mapGet_filter_subset _ _ _ _ he h2
      · rw [if_neg hc] at h
        exact ih _ _ _ _ he h

theorem prunePass_pruned_not_incident (thr : ℚ) (ids : List String) :
    ∀ (g : Graph) (acc : List String) (k : String),
      (g.edges.map Prod.fst).Nodup →
      k ∈ (prunePass thr g ids acc).2 →
      k ∈ acc ∨ (∀ eid e, mapGet (prunePass thr g ids acc).1.edges eid = some e →
        e.source ≠ k ∧ e.target ≠ k) := by
  induction ids with
  | nil =>
    intro g acc k _ hk
    exact Or.inl hk
  | cons id rest ih =>
    intro g acc k he hk
    unfold prunePass at hk ⊢
    cases hget : mapGet g.vertices id with
    | none =>
      rw [hget] at hk
      dsimp only at hk ⊢
      exact ih _ _ _ he hk
    | some node =>
      rw [hget] at hk
      dsimp only at hk ⊢
      by_cases hc : pruneCond thr id node
      · rw [if_pos hc] at hk ⊢
        have hnd2 : (((removeNode g id).edges.map Prod.fst)).Nodup :=
          keys_filter_nodup _ _ he
        rcases ih _ _ _ hnd2 hk with hmem | hprop
        · rcases List.mem_append.mp hmem with hacc | hid
          · exact Or.inl hacc
          · obtain rfl : k = id := List.mem_singleton.mp hid
            refine Or.inr ?_
            intro eid e hE
            have h2 := prunePass_edges_subset thr rest _ _ _ _ hnd2 hE
            unfold removeNode at h2
            dsimp only at h2
            have hpred := mapGet_filter_pred _ _ _ _ he h2
            dsimp only at hpred
            simp only [Bool.not_eq_true', Bool.or_eq_false_iff,
              beq_eq_false_iff_ne] at hpred
            exact hpred
        · exact Or.inr hprop
      · rw [if_neg hc] at hk ⊢
        exact ih _ _ _ he hk

theorem pruneCond_root (thr : ℚ) (n : Node) : pruneCond thr "n0" n = false := by
  unfold pruneCond
  simp

/-- C4 (amended): the pruning pass of `pruneAndMergeNodes` removes exactly
those non-root nodes whose mean confidence is below the pruning threshold
AND whose impact (with the `|| 0.5` fallback) is below 0.3 AND which are
not hypothesis nodes carrying falsification criteria; the root entry is
untouched, no surviving edge is incident to a pruned node, and the
operation reports exactly the ids this pass removed. -/
theorem c4_amended_prune_exactly (g : Graph) (thr mthr : ℚ)
    (hstage : g.currentStage = 4)
    (hv : (g.vertices.map Prod.fst).Nodup)
    (he : (g.edges.map Prod.fst).Nodup) :
    (∀ id n, mapGet g.vertices id = some n →
      mapGet (prunePass thr g (g.vertices.map Prod.fst) []).1.vertices id =
        (if pruneCond thr id n then none else some n)) ∧
    mapGet (prunePass thr g (g.vertices.map Prod.fst) []).1.vertices "n0" =
      mapGet g.vertices "n0" ∧
    (∀ id, id ∈ (prunePass thr g (g.vertices.map Prod.fst) []).2 →
      ∀ eid e,
        mapGet (prunePass thr g (g.vertices.map Prod.fst) []).1.edges eid = some e →
        e.source ≠ id ∧ e.target ≠ id) ∧
    (∀ g' res, pruneAndMergeNodes g thr mthr = .ok (g', res) →
      res.pruned_nodes = (prunePass thr g (g.vertices.map Prod.fst) []).2) := by
  refine ⟨?_, ?_, ?_, ?_⟩
  · intro id n hget
    exact prunePass_get_mem thr _ id n g [] hv (mem_of_mapGet_some _ _ _ hget) hget
  · cases hget : mapGet g.vertices "n0" with
    | none => exact prunePass_get_none thr _ _ g [] hget
    | some n =>
      rw [prunePass_get_mem thr _ _ n g [] hv (mem_of_mapGet_some _ _ _ hget) hget]
      simp [pruneCond_root]
  · intro id hid eid e hE
    rcases prunePass_pruned_not_incident thr _ g [] id he hid with h | h
    · simp at h
    · exact h eid e hE
  · intro g' res h
    unfold pruneAndMergeNodes at h
    rw [if_neg (by omega)] at h
    dsimp only at h
    split at h
    · exact absurd h (by simp)
    · simp only [Except.ok.injEq, Prod.mk.injEq] at h
      rw [← h.2]

/-- Witness for `c4_amended_prune_exactly` on the concrete C4 stage-4
graph with the default thresholds. -/
theorem c4_amended_prune_exactly_witness :
    c4Graph.currentStage = 4 ∧
    ((∀ id n, mapGet c4Graph.vertices id = some n →
      mapGet (prunePass (1/5) c4Graph (c4Graph.vertices.map Prod.fst) []).1.vertices id =
        (if pruneCond (1/5) id n then none else some n)) ∧
    mapGet (prunePass (1/5) c4Graph (c4Graph.vertices.map Prod.fst) []).1.vertices "n0" =
      mapGet c4Graph.vertices "n0" ∧
    (∀ id, id ∈ (prunePass (1/5) c4Graph (c4Graph.vertices.map Prod.fst) []).2 →
      ∀ eid e,
        mapGet (prunePass (1/5) c4Graph (c4Graph.vertices.map Prod.fst) []).1.edges eid =
          some e →
        e.source ≠ id ∧ e.target ≠ id) ∧
    (∀ g' res, pruneAndMergeNodes c4Graph (1/5) (4/5) = .ok (g', res) →
      res.pruned_nodes =
        (prunePass (1/5) c4Graph (c4Graph.vertices.map Prod.fst) []).2)) :=
  ⟨rfl, c4_amended_prune_exactly c4Graph (1/5) (4/5) rfl (by decide) (by decide)⟩

/-- A well-connected node for the C9 extraction examples (mean confidence
0.8 ≥ 0.5, impact 0.6 ≥ 0.6). -/
def c9Node (id : String) : Node := exHyp id "x" [4/5, 4/5, 4/5, 4/5] []

/-- An edge for the C9 extraction examples. -/
def c9Edge (eid s t : String) : Edge :=
  { edge_id := eid, source := s, target := t, edge_type := "Supportive" }

/-- A fully connected 3-node stage-5 graph. -/
def c9Triangle : Graph :=
  { vertices := [("a", c9Node "a"), ("b", c9Node "b"), ("c", c9Node "c")]
    edges := [("e1", c9Edge "e1" "a" "b"), ("e2", c9Edge "e2" "b" "c"),
              ("e3", c9Edge "e3" "c" "a")]
    hyperedges := []
    currentStage := 5 }

/-- A 3-node path at stage 5. -/
def c9Path : Graph :=
  { vertices := [("a", c9Node "a"), ("b", c9Node "b"), ("c", c9Node "c")]
    edges := [("e1", c9Edge "e1" "a" "b"), ("e2", c9Edge "e2" "b" "c")]
    hyperedges := []
    currentStage := 5 }

/-- C9: on every stage-5 graph `extractSubgraphs` succeeds and reports
density `2E/(N(N−1))` for `N > 1` (else 0) and average degree `2E/N` for
`N > 0` (else 0), where `N`/`E` count the selected nodes and edges; in
particular the extracted 3-node complete graph has density 1 and the
3-node path has density 2/3. -/
theorem c9_density_and_average_degree :
    (∀ (g : Graph) (c : ExtractCriteria), g.currentStage = 5 →
      ∃ g' res, extractSubgraphs g c = .ok (g', res) ∧
        res.topology.density =
          (if 1 < res.nodes.length then
            (2 * res.edges.length : ℚ) /
              ((res.nodes.length : ℚ) * ((res.nodes.length : ℚ) - 1))
          else 0) ∧
        res.topology.average_degree =
          (if 0 < res.nodes.length then
            (2 * res.edges.length : ℚ) / (res.nodes.length : ℚ)
          else 0)) ∧
    (extractSubgraphs c9Triangle defaultCriteria).map
      (fun p => p.2.topology.density) = .ok 1 ∧
    (extractSubgraphs c9Path defaultCriteria).map
      (fun p => p.2.topology.density) = .ok (2/3) := by
  refine ⟨?_, by decide, by decide⟩
  intro g c hst
  unfold extractSubgraphs
  rw [if_neg (by omega)]
  dsimp only
  refine ⟨_, _, rfl, ?_, ?_⟩ <;>
    simp [calculateSubgraphTopology]

/-- Witness for `c9_density_and_average_degree` at the concrete triangle
graph with the default criteria. -/
theorem c9_density_and_average_degree_witness :
    c9Triangle.currentStage = 5 ∧
    (∃ g' res, extractSubgraphs c9Triangle defaultCriteria = .ok (g', res) ∧
      res.topology.density =
        (if 1 < res.nodes.length then
          (2 * res.edges.length : ℚ) /
            ((res.nodes.length : ℚ) * ((res.nodes.length : ℚ) - 1))
        else 0) ∧
      res.topology.average_degree =
        (if 0 < res.nodes.length then
          (2 * res.edges.length : ℚ) / (res.nodes.length : ℚ)
        else 0)) :=
  ⟨rfl, c9_density_and_average_degree.1 c9Triangle defaultCriteria rfl⟩

/-- `_createProbabilityDistribution` of `index-corrected.js`: means vector
with Beta-approximation variances `m(1-m)`. -/
structure ProbDist where
  means : List ℚ
  variances : List ℚ
  deriving DecidableEq, Repr

/-- Build the P1.14 confidence distribution from a means vector. -/
def createProbabilityDistribution (means : List ℚ) : ProbDist :=
  { means := means, variances := means.map (fun m => m * (1 - m)) }

/-- A node of the `index-corrected.js` variant (confidence is a
distribution record; metadata fields not read by the modelled operations
are omitted). -/
structure CNode where
  node_id : String
  label : String
  type : String
  content : String
  confidence : ProbDist
  layer_id : String
  deriving DecidableEq, Repr

/-- The `index-corrected.js` graph state: vertices, edges, the layer
membership index, and the stage counter (0 before initialization). -/
structure CGraph where
  vertices : List (String × CNode)
  edges : List (String × Edge)
  layers : List (String × List String)
  currentStage : ℕ
  deriving DecidableEq, Repr

/-- Register a node id in a layer (`layers.get(id).nodes.add(nodeId)`).
The default configuration always creates the five layers, so the missing
layer branch (where the source would raise a `TypeError`) is unreachable
on the graphs considered. -/
def addToLayer (layers : List (String × List String)) (layerId nodeId : String) :
    List (String × List String) :=
  match mapGet layers layerId with
  | some ids => mapSet layers layerId (ids ++ [nodeId])
  | none => layers

/-- A freshly constructed `index-corrected.js` graph: stage 0, the five
default layers, no vertices. -/
def newCGraph : CGraph :=
  { vertices := []
    edges := []
    layers := [("base", []), ("methodological", []), ("empirical", []),
               ("theoretical", []), ("interdisciplinary", [])]
    currentStage := 0 }

/-- Result record of the stage-1 call. -/
structure InitResult where
  node_id : String
  current_stage : ℕ
  deriving DecidableEq, Repr

/-- Stage 1 `initialize` of `index-corrected.js`: requires stage 0 (the
constructor sets `currentStage = 0`), creates the root node `n0`
(`type = root`, confidence distribution over the supplied means, layer
`base`), registers it in the base layer, and sets the stage to 1. -/
def stage1CreateRoot (g : CGraph) (taskDescription : String)
    (initialConfidence : List ℚ) : Except GotError (CGraph × InitResult) :=
  if g.currentStage ≠ 0 then .error (.stageViolation g.currentStage 0)
  else
    let rootNode : CNode :=
      { node_id := "n0"
        label := "Task Understanding"
        type := "root"
        content := taskDescription
        confidence := createProbabilityDistribution initialConfidence
        layer_id := "base" }
    let g1 := { g with
      vertices := mapSet g.vertices "n0" rootNode
      layers := addToLayer g.layers "base" "n0"
      currentStage := 1 }
    .ok (g1, { node_id := "n0", current_stage := 1 })

/-- The `InputValidator` checks the `initialize_asr_got_graph` tool handler
runs on a supplied `initial_confidence`: an array of exactly 4 items
(`minItems`/`maxItems` 4), each a number with `min: 0, max: 1`. -/
def validateInitialConfidenceArg (conf : List ℚ) : Except GotError Unit :=
  if 4 < conf.length then
    .error (.validationError "initial_confidence cannot have more than 4 items")
  else if conf.length < 4 then
    .error (.validationError "initial_confidence must have at least 4 items")
  else
    match conf.find? (fun c => decide (c < 0) || decide (1 < c)) with
    | some _ => .error (.validationError "initial_confidence component out of range")
    | none => .ok ()

/-- JS `\s` for the validator's trim/whitespace tests (the ASCII whitespace
characters; the Unicode space classes do not occur in the inputs
considered). -/
def isJsSpace (c : Char) : Bool :=
  c == ' ' || c == '\t' || c == '\n' || c == '\r' || c == '\x0b' || c == '\x0c'

/-- JS `\w`: ASCII letters, digits and the underscore. -/
def isWordChar (c : Char) : Bool := c.isAlphanum || c == '_'

/-- Does the first list match the front of the second? -/
def startsWithChars : List Char → List Char → Bool
  | [], _ => true
  | _ :: _, [] => false
  | p :: ps, c :: cs => p == c && startsWithChars ps cs

/-- `\s*=` at the front of the list. -/
def skipSpacesThenEq : List Char → Bool
  | [] => false
  | c :: rest => if isJsSpace c then skipSpacesThenEq rest else c == '='

/-- Continuation of `on\w+\s*=` after `on` and one word character: the
rest of the greedy `\w+`, then `\s*`, then `=`.  No backtracking is
needed because word characters, whitespace and `=` are pairwise
disjoint. -/
def afterWordStar : List Char → Bool
  | [] => false
  | c :: rest =>
    if isWordChar c then afterWordStar rest
    else skipSpacesThenEq (c :: rest)

/-- One alternative of the `InputValidator` dangerous-pattern regex
(`<script|javascript:|data:|vbscript:|on\w+\s*=`) anchored at this
position of the lower-cased text. -/
def dangerousAt (l : List Char) : Bool :=
  startsWithChars "<script".toList l ||
  startsWithChars "javascript:".toList l ||
  startsWithChars "data:".toList l ||
  startsWithChars "vbscript:".toList l ||
  (match l with
   | 'o' :: 'n' :: c :: rest => isWordChar c && afterWordStar rest
   | _ => false)

/-- Test the regex at every position of the list. -/
def scanDangerous : List Char → Bool
  | [] => false
  | c :: rest => dangerousAt (c :: rest) || scanDangerous rest

/-- `InputValidator.validateString`'s XSS/injection scan,
`/<script|javascript:|data:|vbscript:|on\w+\s*=/i.test(value)`: the
case-insensitive test is run on the lower-cased text. -/
def hasDangerousPattern (s : String) : Bool := scanDangerous (jsToLower s).toList

/-- `InputValidator.validateString(args.task_description,
'task_description', { required: true, maxLength: 5000, minLength: 10 })`
in the source's check order: the `required` test rejects a missing or
trim-blank value, then the value may not exceed 5000 characters, must
have at least 10, and must pass the dangerous-pattern scan. -/
def validateTaskDescriptionArg (task : String) : Except GotError Unit :=
  if task.toList.all isJsSpace then
    .error (.validationError "task_description is required and cannot be empty")
  else if 5000 < task.length then
    .error (.validationError "task_description exceeds maximum length of 5000")
  else if task.length < 10 then
    .error (.validationError "task_description must be at least 10 characters")
  else if hasDangerousPattern task then
    .error (.validationError "task_description contains potentially dangerous content")
  else .ok ()

/-- The `initialize_asr_got_graph` tool handler of `index-corrected.js`:
validate `task_description` first, then the optional `initial_confidence`
argument; only then construct a fresh graph for the session and run the
stage-1 call on it.  A validation failure therefore leaves the session
graph untouched (no root node is created and the stage does not
change). -/
def handleInitTool (session : Option CGraph) (taskDescription : String)
    (conf : Option (List ℚ)) : Option CGraph × Except GotError InitResult :=
  match validateTaskDescriptionArg taskDescription with
  | .error e => (session, .error e)
  | .ok _ =>
    match conf with
    | some c =>
      match validateInitialConfidenceArg c with
      | .error e => (session, .error e)
      | .ok _ =>
        match stage1CreateRoot newCGraph taskDescription c with
        | .error e => (some newCGraph, .error e)
        | .ok (g', r) => (some g', .ok r)
    | none =>
      match stage1CreateRoot newCGraph taskDescription [4/5, 4/5, 4/5, 4/5] with
      | .error e => (some newCGraph, .error e)
      | .ok (g', r) => (some g', .ok r)

/-- Result record of stage-2 decomposition. -/
structure DecomposeResult where
  dimension_nodes : List String
  current_stage : ℕ
  deriving DecidableEq, Repr

/-- The P1.2 default dimension labels. -/
def defaultDimensions : List String :=
  ["Scope", "Objectives", "Constraints", "Data Needs",
   "Use Cases", "Potential Biases", "Knowledge Gaps"]

/-- Stage 2 `decomposeTask` of `index-corrected.js`: requires stage 1;
creates one dimension node per label with id `2.<i+1>` (exact numbering as
per the specification), each linked to `n0` by a `Decomposition` edge,
registers them in the base layer, and sets the stage to 2. -/
def correctedDecomposeTask (g : CGraph) (customDimensions : Option (List String)) :
    Except GotError (CGraph × DecomposeResult) :=
  if g.currentStage ≠ 1 then .error (.stageViolation g.currentStage 1)
  else
    let taskDimensions := customDimensions.getD defaultDimensions
    let entries := taskDimensions.enum.map (fun p => ("2." ++ toString (p.1 + 1), p.2))
    let g1 := entries.foldl (fun acc e =>
      let dimensionNode : CNode :=
        { node_id := e.1
          label := e.2
          type := "dimension"
          content := "Analysis of " ++ e.2 ++ " aspects of the research task"
          confidence := createProbabilityDistribution [4/5, 4/5, 4/5, 4/5]
          layer_id := "base" }
      let edgeId := "e_n0_" ++ e.1
      let newEdge : Edge :=
        { edge_id := edgeId, source := "n0", target := e.1,
          edge_type := "Decomposition" }
      { acc with
        vertices := mapSet acc.vertices e.1 dimensionNode
        edges := mapSet acc.edges edgeId newEdge
        layers := addToLayer acc.layers "base" e.1 }) g
    .ok ({ g1 with currentStage := 2 },
         { dimension_nodes := entries.map Prod.fst, current_stage := 2 })

/-- Caller-supplied hypothesis object for stage 3. -/
structure HypothesisInput where
  content : String
  confidence : Option (List ℚ)
  falsification_criteria : Option String
  impact_score : Option ℚ
  deriving DecidableEq, Repr

/-- Result record of stage-3 hypothesis generation. -/
structure HypothesesResult where
  hypothesis_nodes : List String
  current_stage : ℕ
  deriving DecidableEq, Repr

/-- JS `x || d` for an optional natural (`config.max_hypotheses || 5`). -/
def jsOrOptNat (x : Option ℕ) (d : ℕ) : ℕ :=
  match x with
  | none => d
  | some v => if v = 0 then d else v

/-- Stage 3 `generateHypotheses` of `index-corrected.js`: requires stage 2
and an existing dimension node; accepts at most `min(max_hypotheses || 5, 5)`
hypotheses; numbers them `3.<dim>.<k+1>` where `<dim>` is the second
dot-component of the dimension id (JS `dimensionNodeId.split('.')[1]`,
stringifying to `"undefined"` when missing); links each to its dimension
with a `Hypothesis` edge; sets the stage to 3. -/
def correctedGenerateHypotheses (g : CGraph) (dimensionNodeId : String)
    (hypotheses : List HypothesisInput) (maxHypothesesCfg : Option ℕ) :
    Except GotError (CGraph × HypothesesResult) :=
  if g.currentStage ≠ 2 then .error (.stageViolation g.currentStage 2)
  else if (mapGet g.vertices dimensionNodeId).isNone then
    .error (.nodeNotFound dimensionNodeId)
  else
    let maxHypotheses := min (jsOrOptNat maxHypothesesCfg 5) 5
    let dimensionNumber := (jsSplitChar '.' dimensionNodeId).getD 1 "undefined"
    let entries := (hypotheses.take maxHypotheses).enum
    let g1 := entries.foldl (fun acc e =>
      let nodeId := "3." ++ dimensionNumber ++ "." ++ toString (e.1 + 1)
      let hypothesisNode : CNode :=
        { node_id := nodeId
          label := "Hypothesis " ++ dimensionNumber ++ "." ++ toString (e.1 + 1)
          type := "hypothesis"
          content := e.2.content
          confidence := createProbabilityDistribution
            ((e.2.confidence).getD [1/2, 1/2, 1/2, 1/2])
          layer_id := "theoretical" }
      let edgeId := "e_" ++ dimensionNodeId ++ "_" ++ nodeId
      let newEdge : Edge :=
        { edge_id := edgeId, source := dimensionNodeId, target := nodeId,
          edge_type := "Hypothesis" }
      { acc with
        vertices := mapSet acc.vertices nodeId hypothesisNode
        edges := mapSet acc.edges edgeId newEdge
        layers := addToLayer acc.layers "theoretical" nodeId }) g
    .ok ({ g1 with currentStage := 3 },
         { hypothesis_nodes := entries.map (fun e =>
             "3." ++ dimensionNumber ++ "." ++ toString (e.1 + 1))
           current_stage := 3 })

/-- C7: decomposing with the labels `["A", "B"]` creates dimension nodes
`2.1`, `2.2` in input order, and generating three hypotheses on dimension
`2.1` creates hypothesis nodes `3.1.1`, `3.1.2`, `3.1.3` in input order. -/
theorem c7_deterministic_ids :
    (∀ g : CGraph, g.currentStage = 1 →
      ∃ g' r, correctedDecomposeTask g (some ["A", "B"]) = .ok (g', r) ∧
        r.dimension_nodes = ["2.1", "2.2"] ∧
        (mapGet g'.vertices "2.1").map CNode.type = some "dimension" ∧
        (mapGet g'.vertices "2.2").map CNode.type = some "dimension") ∧
    (∀ (g : CGraph) (h1 h2 h3 : HypothesisInput), g.currentStage = 2 →
      (mapGet g.vertices "2.1").isSome = true →
      ∃ g' r, correctedGenerateHypotheses g "2.1" [h1, h2, h3] none = .ok (g', r) ∧
        r.hypothesis_nodes = ["3.1.1", "3.1.2", "3.1.3"]) := by
  have e1 : ("2." ++ toString (0 + 1) : String) = "2.1" := by decide
  have e2 : ("2." ++ toString (0 + 1 + 1) : String) = "2.2" := by decide
  constructor
  · intro g hst
    unfold correctedDecomposeTask
    rw [if_neg (by omega)]
    simp only [Option.getD_some, List.enum, List.enumFrom, List.map,
      List.foldl_cons, List.foldl_nil]
    refine ⟨_, _, rfl, rfl, ?_, ?_⟩
    · dsimp only
      rw [e1, e2, mapGet_set_ne _ _ _ _ (by decide), mapGet_set_eq]
      rfl
    · dsimp only
      rw [e1, e2, mapGet_set_eq]
      rfl
  · intro g h1 h2 h3 hst hdim
    obtain ⟨d, hd⟩ := Option.isSome_iff_exists.mp hdim
    unfold correctedGenerateHypotheses
    rw [if_neg (by omega), hd]
    rw [if_neg (by simp)]
    refine ⟨_, _, rfl, ?_⟩
    have hmax : jsOrOptNat none 5 ⊓ 5 = 5 := by decide
    have hdimnum : (jsSplitChar '.' "2.1").getD 1 "undefined" = "1" := by decide
    dsimp only
    rw [hmax, hdimnum, List.take_of_length_le (by simp)]
    simp only [List.enum, List.enumFrom, List.map_cons, List.map_nil]
    decide

/-- Root node of the concrete corrected-variant graphs. -/
def c7Root : CNode :=
  { node_id := "n0"
    label := "Task Understanding"
    type := "root"
    content := "Study X"
    confidence := createProbabilityDistribution [4/5, 4/5, 4/5, 4/5]
    layer_id := "base" }

/-- A concrete stage-1 corrected-variant graph (root only). -/
def c7Graph1 : CGraph :=
  { vertices := [("n0", c7Root)]
    edges := []
    layers := [("base", ["n0"]), ("methodological", []), ("empirical", []),
               ("theoretical", []), ("interdisciplinary", [])]
    currentStage := 1 }

/-- A concrete stage-2 corrected-variant graph holding dimension `2.1`. -/
def c7Graph2 : CGraph :=
  { vertices := [("n0", c7Root),
                 ("2.1", { node_id := "2.1", label := "A", type := "dimension",
                           content := "Analysis of A aspects of the research task",
                           confidence := createProbabilityDistribution [4/5, 4/5, 4/5, 4/5],
                           layer_id := "base" })]
    edges := []
    layers := [("base", ["n0", "2.1"]), ("methodological", []), ("empirical", []),
               ("theoretical", []), ("interdisciplinary", [])]
    currentStage := 2 }

/-- A concrete hypothesis input. -/
def c7Hyp : HypothesisInput :=
  { content := "h", confidence := none, falsification_criteria := none,
    impact_score := none }

/-- Witness for `c7_deterministic_ids` on the concrete stage-1 and stage-2
graphs. -/
theorem c7_deterministic_ids_witness :
    (c7Graph1.currentStage = 1 ∧
      ∃ g' r, correctedDecomposeTask c7Graph1 (some ["A", "B"]) = .ok (g', r) ∧
        r.dimension_nodes = ["2.1", "2.2"] ∧
        (mapGet g'.vertices "2.1").map CNode.type = some "dimension" ∧
        (mapGet g'.vertices "2.2").map CNode.type = some "dimension") ∧
    (c7Graph2.currentStage = 2 ∧
      ∃ g' r, correctedGenerateHypotheses c7Graph2 "2.1" [c7Hyp, c7Hyp, c7Hyp] none =
          .ok (g', r) ∧
        r.hypothesis_nodes = ["3.1.1", "3.1.2", "3.1.3"]) :=
  ⟨⟨rfl, c7_deterministic_ids.1 c7Graph1 rfl⟩,
   ⟨rfl, c7_deterministic_ids.2 c7Graph2 c7Hyp c7Hyp c7Hyp rfl (by decide)⟩⟩

/-- C8: the `initialize_asr_got_graph` handler validates its arguments
before any graph exists: an invalid `task_description` (blank, shorter
than 10 or longer than 5000 characters, or matching the dangerous-pattern
scan) is rejected with the session graph untouched, an
`initial_confidence` that is not exactly 4 components each in [0, 1] is
likewise rejected with the session graph untouched (no root node, stage
unchanged), on a valid task and a valid vector it creates root `n0`
(`type = root`, confidence means equal to the supplied vector, layer
`base`, registered in the base layer) and sets the stage to 1, and the
stage-1 call itself rejects any graph whose stage is not 0. -/
theorem c8_init_requires_stage0_and_validates :
    (∀ (session : Option CGraph) (task : String) (conf : Option (List ℚ)),
      (task.toList.all isJsSpace = true ∨ task.length < 10 ∨ 5000 < task.length ∨
        hasDangerousPattern task = true) →
      (handleInitTool session task conf).1 = session ∧
      ∃ e, (handleInitTool session task conf).2 = .error e) ∧
    (∀ (session : Option CGraph) (task : String) (conf : List ℚ),
      ¬(conf.length = 4 ∧ ∀ c ∈ conf, 0 ≤ c ∧ c ≤ 1) →
      (handleInitTool session task (some conf)).1 = session ∧
      ∃ e, (handleInitTool session task (some conf)).2 = .error e) ∧
    (∀ (session : Option CGraph) (task : String) (conf : List ℚ),
      validateTaskDescriptionArg task = .ok () →
      conf.length = 4 → (∀ c ∈ conf, 0 ≤ c ∧ c ≤ 1) →
      ∃ g' r, handleInitTool session task (some conf) = (some g', .ok r) ∧
        g'.currentStage = 1 ∧
        (∃ root, mapGet g'.vertices "n0" = some root ∧ root.type = "root" ∧
          root.confidence.means = conf ∧ root.layer_id = "base") ∧
        (∃ baseNodes, mapGet g'.layers "base" = some baseNodes ∧ "n0" ∈ baseNodes)) ∧
    (∀ (g : CGraph) (task : String) (conf : List ℚ), g.currentStage ≠ 0 →
      stage1CreateRoot g task conf = .error (.stageViolation g.currentStage 0)) := by
  refine ⟨?_, ?_, ?_, ?_⟩
  · intro session task conf hbad
    have htaskerr : ∃ e, validateTaskDescriptionArg task = .error e := by
      unfold validateTaskDescriptionArg
      by_cases h1 : task.toList.all isJsSpace
      · rw [if_pos h1]
        exact ⟨_, rfl⟩
      · rw [if_neg h1]
        by_cases h2 : 5000 < task.length
        · rw [if_pos h2]
          exact ⟨_, rfl⟩
        · rw [if_neg h2]
          by_cases h3 : task.length < 10
          · rw [if_pos h3]
            exact ⟨_, rfl⟩
          · rw [if_neg h3]
            by_cases h4 : hasDangerousPattern task
            · rw [if_pos h4]
              exact ⟨_, rfl⟩
            · exfalso
              rcases hbad with h | h | h | h
              · exact h1 h
              · exact h3 h
              · exact h2 h
              · exact h4 h
    obtain ⟨e, he⟩ := htaskerr
    unfold handleInitTool
    rw [he]
    exact ⟨rfl, e, rfl⟩
  · intro session task conf hbad
    unfold handleInitTool
    cases htask : validateTaskDescriptionArg task with
    | error e => exact ⟨rfl, e, rfl⟩
    | ok u =>
      dsimp only
      have hvalerr : ∃ e, validateInitialConfidenceArg conf = .error e := by
        unfold validateInitialConfidenceArg
        by_cases hl1 : 4 < conf.length
        · rw [if_pos hl1]
          exact ⟨_, rfl⟩
        · rw [if_neg hl1]
          by_cases hl2 : conf.length < 4
          · rw [if_pos hl2]
            exact ⟨_, rfl⟩
          · rw [if_neg hl2]
            cases hf : conf.find? (fun c => decide (c < 0) || decide (1 < c)) with
            | some c => exact ⟨_, rfl⟩
            | none =>
              exfalso
              apply hbad
              refine ⟨by omega, ?_⟩
              intro c hc
              have hnp := List.find?_eq_none.mp hf c hc
              simp only [Bool.or_eq_true, decide_eq_true_eq, not_or] at hnp
              exact ⟨not_lt.mp hnp.1, not_lt.mp hnp.2⟩
      obtain ⟨e, he⟩ := hvalerr
      rw [he]
      exact ⟨rfl, e, rfl⟩
  · intro session task conf htask hlen hbounds
    have hval : validateInitialConfidenceArg conf = .ok () := by
      unfold validateInitialConfidenceArg
      rw [if_neg (by omega), if_neg (by omega)]
      cases hf : conf.find? (fun c => decide (c < 0) || decide (1 < c)) with
      | none => rfl
      | some c =>
        exfalso
        have hcm := List.mem_of_find?_eq_some hf
        have hcp := List.find?_some hf
        obtain ⟨h0, h1⟩ := hbounds c hcm
        simp only [Bool.or_eq_true, decide_eq_true_eq] at hcp
        rcases hcp with h | h <;> linarith
    unfold handleInitTool
    rw [htask]
    dsimp only
    rw [hval]
    unfold stage1CreateRoot
    rw [if_neg (by simp [newCGraph])]
    dsimp only
    refine ⟨_, _, rfl, rfl, ⟨_, mapGet_set_eq _ _ _, rfl, rfl, rfl⟩,
           ⟨["n0"], ?_, by decide⟩⟩
    show mapGet (addToLayer newCGraph.layers "base" "n0") "base" = some ["n0"]
    decide
  · intro g task conf h
    unfold stage1CreateRoot
    rw [if_pos h]

/-- Witness for `c8_init_requires_stage0_and_validates`: the 7-character
task `Study X` is rejected even with a valid confidence vector; on a valid
task, a 5-component vector and a vector with a component above 1 are both
rejected with the session untouched; the valid vector
`[0.8, 0.8, 0.8, 0.8]` creates the root; and a stage-1 graph cannot be
re-initialized. -/
theorem c8_init_requires_stage0_and_validates_witness :
    (("Study X" : String).length < 10 ∧
      (handleInitTool none "Study X" (some [4/5, 4/5, 4/5, 4/5])).1 = none ∧
      ∃ e, (handleInitTool none "Study X" (some [4/5, 4/5, 4/5, 4/5])).2 =
        .error e) ∧
    (¬([1/2, 1/2, 1/2, 1/2, (1/2 : ℚ)].length = 4 ∧
        ∀ c ∈ [1/2, 1/2, 1/2, 1/2, (1/2 : ℚ)], 0 ≤ c ∧ c ≤ 1) ∧
      (handleInitTool none "Study X in detail" (some [1/2, 1/2, 1/2, 1/2, 1/2])).1 =
        none ∧
      ∃ e, (handleInitTool none "Study X in detail"
        (some [1/2, 1/2, 1/2, 1/2, 1/2])).2 = .error e) ∧
    (¬([1/2, 1/2, 1/2, (3/2 : ℚ)].length = 4 ∧
        ∀ c ∈ [1/2, 1/2, 1/2, (3/2 : ℚ)], 0 ≤ c ∧ c ≤ 1) ∧
      (handleInitTool none "Study X in detail" (some [1/2, 1/2, 1/2, 3/2])).1 =
        none ∧
      ∃ e, (handleInitTool none "Study X in detail"
        (some [1/2, 1/2, 1/2, 3/2])).2 = .error e) ∧
    (validateTaskDescriptionArg "Study X in detail" = .ok () ∧
      ∃ g' r, handleInitTool none "Study X in detail" (some [4/5, 4/5, 4/5, 4/5]) =
          (some g', .ok r) ∧
        g'.currentStage = 1 ∧
        (∃ root, mapGet g'.vertices "n0" = some root ∧ root.type = "root" ∧
          root.confidence.means = [4/5, 4/5, 4/5, 4/5] ∧ root.layer_id = "base") ∧
        (∃ baseNodes, mapGet g'.layers "base" = some baseNodes ∧ "n0" ∈ baseNodes)) ∧
    stage1CreateRoot c7Graph1 "Study X in detail" [4/5, 4/5, 4/5, 4/5] =
      .error (.stageViolation 1 0) := by
  refine ⟨⟨by decide, ?_, ?_⟩, ⟨by decide, ?_, ?_⟩, ⟨by decide, ?_, ?_⟩,
          ⟨by decide, ?_⟩, ?_⟩
  · exact (c8_init_requires_stage0_and_validates.1 none "Study X" _
      (Or.inr (Or.inl (by decide)))).1
  · exact (c8_init_requires_stage0_and_validates.1 none "Study X" _
      (Or.inr (Or.inl (by decide)))).2
  · exact (c8_init_requires_stage0_and_validates.2.1 none "Study X in detail" _
      (by decide)).1
  · exact (c8_init_requires_stage0_and_validates.2.1 none "Study X in detail" _
      (by decide)).2
  · exact (c8_init_requires_stage0_and_validates.2.1 none "Study X in detail" _
      (by decide)).1
  · exact (c8_init_requires_stage0_and_validates.2.1 none "Study X in detail" _
      (by decide)).2
  · exact c8_init_requires_stage0_and_validates.2.2.1 none "Study X in detail" _
      (by decide) (by decide) (by decide)
  · exact c8_init_requires_stage0_and_validates.2.2.2 c7Graph1 "Study X in detail" _
      (by decide)
